import Mathlib

/-!
Verification of the Baserow enterprise assistant automation-workflow
creation glue and the premium AI-field background-task wiring.

The Python source under
`src/enterprise/backend/src/baserow_enterprise/assistant/tools/automation/`
is embedded shallowly: pydantic models become structures, `to_orm_service_dict`
and `to_orm_reference_node` become pure functions, and the external ORM
services (`AutomationWorkflowService`, `AutomationNodeService`) are modelled
as an event trace together with sequentially assigned fresh ORM ids.
-/

namespace Baserow

/-- A Python value as it appears in the ORM service dicts produced by the
node schema classes. Floats are carried opaquely as rationals (no float
arithmetic occurs in the source). The only nested collections the source
ever builds are a list of strings (`ai_choices`) and a list of string-valued
dicts (the router `edges`), so those two shapes are constructors of their
own and the value type needs no recursion. -/
inductive PyVal where
  | vStr : String → PyVal
  | vInt : Int → PyVal
  | vFloat : Rat → PyVal
  | vNone : PyVal
  | vStrList : List String → PyVal
  | vDicts : List (List (String × String)) → PyVal
  deriving DecidableEq, Repr

/-- A Python dict with string keys, in insertion order. -/
abbrev PyDict := List (String × PyVal)

/-- `Optional[int]` rendered by pydantic `model_dump`. -/
def optIntVal : Option Int → PyVal
  | none => PyVal.vNone
  | some i => PyVal.vInt i

/-- The `Literal["MINUTE", "HOUR", "DAY", "WEEK", "MONTH"]` interval of
`PeriodicTriggerSettings`. -/
inductive Interval where
  | MINUTE | HOUR | DAY | WEEK | MONTH
  deriving DecidableEq, Repr

def Interval.toStr : Interval → String
  | .MINUTE => "MINUTE"
  | .HOUR => "HOUR"
  | .DAY => "DAY"
  | .WEEK => "WEEK"
  | .MONTH => "MONTH"

/-- `PeriodicTriggerSettings` (node.py lines 28-46). -/
structure PeriodicTriggerSettings where
  interval : Interval
  minute : Option Int := some 0
  hour : Option Int := some 0
  day_of_week : Option Int := some 0
  day_of_month : Option Int := some 1
  deriving DecidableEq, Repr

/-- pydantic `model_dump` of `PeriodicTriggerSettings`: all five fields. -/
def PeriodicTriggerSettings.model_dump (s : PeriodicTriggerSettings) : PyDict :=
  [("interval", PyVal.vStr s.interval.toStr),
   ("minute", optIntVal s.minute),
   ("hour", optIntVal s.hour),
   ("day_of_week", optIntVal s.day_of_week),
   ("day_of_month", optIntVal s.day_of_month)]

/-- `RowsTriggersSettings` (node.py lines 49-52). -/
structure RowsTriggersSettings where
  table_id : Int
  deriving DecidableEq, Repr

/-- pydantic `model_dump` of `RowsTriggersSettings`. -/
def RowsTriggersSettings.model_dump (s : RowsTriggersSettings) : PyDict :=
  [("table_id", PyVal.vInt s.table_id)]

/-- The `Literal` trigger type of `TriggerNodeCreate` (node.py lines 58-64). -/
inductive TriggerType where
  | periodic | http_trigger | rows_updated | rows_created | rows_deleted
  deriving DecidableEq, Repr

def TriggerType.toStr : TriggerType → String
  | .periodic => "periodic"
  | .http_trigger => "http_trigger"
  | .rows_updated => "rows_updated"
  | .rows_created => "rows_created"
  | .rows_deleted => "rows_deleted"

/-- `TriggerNodeCreate` (node.py lines 55-74): label and type from `NodeBase`,
ref from `RefCreate`, plus the two optional settings objects. -/
structure TriggerNodeCreate where
  ref : String
  label : String
  type : TriggerType
  periodic_interval : Option PeriodicTriggerSettings := none
  rows_triggers_settings : Option RowsTriggersSettings := none
  deriving DecidableEq, Repr

/-- `TriggerNodeCreate.to_orm_service_dict` (node.py lines 76-88): the
periodic settings dump when the type is periodic and the settings are set,
the rows settings dump when the type is one of the three rows types and those
settings are set, and the empty dict otherwise. -/
def TriggerNodeCreate.to_orm_service_dict (t : TriggerNodeCreate) : PyDict :=
  match t.type, t.periodic_interval with
  | .periodic, some pi => pi.model_dump
  | ty, _ =>
    match t.rows_triggers_settings with
    | some rts =>
      if ty = .rows_created ∨ ty = .rows_updated ∨ ty = .rows_deleted then
        rts.model_dump
      else []
    | none => []

/-- `RouterEdgeCreate` (node.py lines 139-156): a router branch. The private
`_uid` attribute, generated by `uuid4()` at construction, is embedded as an
explicit string field carried by the branch. -/
structure RouterEdgeCreate where
  label : String
  condition : String := ""
  uid : String
  deriving DecidableEq, Repr

/-- `RouterEdgeCreate.to_orm_service_dict` (node.py lines 152-156), a
string-valued dict. -/
def RouterEdgeCreate.to_orm_service_dict (e : RouterEdgeCreate) :
    List (String × String) :=
  [("uid", e.uid), ("label", e.label)]

/-- Wrap a string in single quotes, as the f-strings of the action
`to_orm_service_dict` methods do. -/
def sq (s : String) : String := "'" ++ s ++ "'"

/-- The per-type payload of the non-trigger node creation schemas
(`AnyNodeCreate`, node.py lines 308-317): router, smtp_email, create_row,
update_row, delete_row and ai_agent, with each class's own fields. -/
inductive NodeKind where
  | router (edges : List RouterEdgeCreate)
  | smtp_email (to_emails : String) (cc_emails bcc_emails : Option String)
      (subject body body_type : String)
  | create_row (table_id : Int) (values : PyDict)
  | update_row (table_id : Int) (row : String) (values : PyDict)
  | delete_row (table_id : Int) (row : String)
  | ai_agent (output_type : String) (choices : Option (List String))
      (temperature : Option Rat) (prompt : String)
  deriving DecidableEq, Repr

/-- A non-trigger node creation schema: the shared `RefCreate` and
`EdgeCreate` fields (ref, previous_node_ref, router_edge_label), the
`NodeBase` label, and the per-type payload. -/
structure NodeCreate where
  ref : String
  label : String
  previous_node_ref : String
  router_edge_label : String := ""
  kind : NodeKind
  deriving DecidableEq, Repr

/-- The discriminator `type` string of a non-trigger node. -/
def NodeCreate.type (n : NodeCreate) : String :=
  match n.kind with
  | .router _ => "router"
  | .smtp_email _ _ _ _ _ _ => "smtp_email"
  | .create_row _ _ => "create_row"
  | .update_row _ _ _ => "update_row"
  | .delete_row _ _ => "delete_row"
  | .ai_agent _ _ _ _ => "ai_agent"

/-- The `edges` attribute: the branches of a router node. Only router nodes
have it; `to_orm_reference_node` only reads it after checking that the type
is router, so the default `[]` for the other kinds is never reached there. -/
def NodeCreate.edges (n : NodeCreate) : List RouterEdgeCreate :=
  match n.kind with
  | .router es => es
  | _ => []

/-- The `values` attribute of a create_row or update_row node (empty for
the other kinds, which do not have it). -/
def NodeCreate.values (n : NodeCreate) : PyDict :=
  match n.kind with
  | .create_row _ vs => vs
  | .update_row _ _ vs => vs
  | _ => []

/-- `to_orm_service_dict` of each non-trigger node creation class:
`RouterNodeCreate` (node.py lines 176-177), `SendEmailActionCreate`
(lines 199-207), `RowActionService` shared by the three row actions
(lines 222-226), and `AiAgentNodeCreate` (lines 295-301). -/
def NodeCreate.to_orm_service_dict (n : NodeCreate) : PyDict :=
  match n.kind with
  | .router es =>
      [("edges", PyVal.vDicts (es.map (fun e => e.to_orm_service_dict)))]
  | .smtp_email to_emails cc_emails bcc_emails subject body body_type =>
      [("to_email", PyVal.vStr (sq to_emails)),
       ("cc_email", PyVal.vStr (sq (cc_emails.getD ""))),
       ("bcc_email", PyVal.vStr (sq (bcc_emails.getD ""))),
       ("subject", PyVal.vStr (sq subject)),
       ("body", PyVal.vStr (sq body)),
       ("body_type", PyVal.vStr (sq body_type))]
  | .create_row table_id _ => [("table_id", PyVal.vInt table_id)]
  | .update_row table_id _ _ => [("table_id", PyVal.vInt table_id)]
  | .delete_row table_id _ => [("table_id", PyVal.vInt table_id)]
  | .ai_agent output_type choices temperature prompt =>
      [("ai_choices",
        PyVal.vStrList (if output_type = "choice" then choices.getD [] else [])),
       ("ai_temperature",
        match temperature with | none => PyVal.vNone | some q => PyVal.vFloat q),
       ("ai_prompt", PyVal.vStr (sq prompt)),
       ("ai_output_type", PyVal.vStr output_type)]

/-- Either the trigger or a non-trigger node: the second component of the
values stored in `node_mapping` by `create_workflow`. -/
inductive AnyCreate where
  | trigger : TriggerNodeCreate → AnyCreate
  | node : NodeCreate → AnyCreate
  deriving DecidableEq, Repr

/-- The `ref` of the schema object. -/
def AnyCreate.ref : AnyCreate → String
  | .trigger t => t.ref
  | .node n => n.ref

/-- The `type` of the schema object, as the string pydantic stores. -/
def AnyCreate.type : AnyCreate → String
  | .trigger t => t.type.toStr
  | .node n => n.type

/-- The `edges` attribute (router branches; empty elsewhere, see
`NodeCreate.edges`). -/
def AnyCreate.edges : AnyCreate → List RouterEdgeCreate
  | .trigger _ => []
  | .node n => n.edges

/-- A key of `node_mapping`: node refs are Python strings and ORM ids are
Python ints, so the two kinds of keys can never collide in the dict. -/
inductive MapKey where
  | ref : String → MapKey
  | ormId : Nat → MapKey
  deriving DecidableEq, Repr

/-- The `node_mapping` dict of `create_workflow`: insertion-ordered, each key
mapped to the pair of the created ORM node (represented by its id) and the
schema object it was created from. -/
abbrev Mapping := List (MapKey × (Nat × AnyCreate))

/-- Python dict lookup. -/
def dictGet (k : MapKey) : Mapping → Option (Nat × AnyCreate)
  | [] => none
  | (k', v) :: rest => if k' = k then some v else dictGet k rest

/-- Python dict assignment: update in place when the key exists, append
otherwise (insertion order preserved). -/
def dictInsert (k : MapKey) (v : Nat × AnyCreate) : Mapping → Mapping
  | [] => [(k, v)]
  | (k', v') :: rest =>
      if k' = k then (k, v) :: rest else (k', v') :: dictInsert k v rest

/-- The two dict assignments
`node_mapping[c.ref] = node_mapping[orm_id] = (orm_node, c)` executed for the
trigger (utils.py line 63) and for each node (utils.py line 81): the value is
registered first under the schema ref, then under the ORM id. -/
def insertEntity (m : Mapping) (i : Nat) (c : AnyCreate) : Mapping :=
  dictInsert (MapKey.ormId i) (i, c) (dictInsert (MapKey.ref c.ref) (i, c) m)

/-- Register a list of entities in order, the first getting ORM id `i`. -/
def buildMappingAux (m : Mapping) (i : Nat) : List AnyCreate → Mapping
  | [] => m
  | c :: rest => buildMappingAux (insertEntity m i c) (i + 1) rest

/-- The last entity of `es` whose ref is `r`, paired with its ORM id when the
first element of `es` gets id `i` (the entry a ref-key lookup finds, since a
later registration under the same ref overwrites an earlier one). -/
def lastWithRef (i : Nat) (es : List AnyCreate) (r : String) :
    Option (Nat × AnyCreate) :=
  match es with
  | [] => none
  | c :: rest =>
      match lastWithRef (i + 1) rest r with
      | some p => some p
      | none => if c.ref = r then some (i, c) else none

/-- The entity of `es` registered under ORM id `j` when the first element of
`es` gets id `i` (ids increase by one per entity, so at most one matches). -/
def idLookup (i : Nat) (es : List AnyCreate) (j : Nat) :
    Option (Nat × AnyCreate) :=
  match es with
  | [] => none
  | c :: rest =>
      match idLookup (i + 1) rest j with
      | some p => some p
      | none => if j = i then some (i, c) else none

/-- `EdgeCreate.to_orm_reference_node` (node.py lines 109-136). Looks up
`previous_node_ref` in the mapping (ValueError when absent); when
`router_edge_label` is truthy (non-empty) and the previous schema object is a
router, the output is the `_uid` of the first branch whose label matches
(ValueError when none matches); otherwise the output is the empty string. -/
def NodeCreate.to_orm_reference_node (n : NodeCreate) (node_mapping : Mapping) :
    Except String (Nat × String) :=
  match dictGet (MapKey.ref n.previous_node_ref) node_mapping with
  | none =>
      Except.error
        ("Previous node ref '" ++ n.previous_node_ref ++ "' not found in mapping")
  | some (previous_orm_node_id, previous_node_create) =>
      if n.router_edge_label ≠ "" ∧ previous_node_create.type = "router" then
        match previous_node_create.edges.find?
            (fun edge => edge.label = n.router_edge_label) with
        | some edge => Except.ok (previous_orm_node_id, edge.uid)
        | none =>
            Except.error
              ("Branch label '" ++ n.router_edge_label
                ++ "' not found in previous router node")
      else
        Except.ok (previous_orm_node_id, "")

/-- Modelled from the spec: `WorkflowCreate` (types/workflow.py, not under
src/), the request-scoped workflow creation schema, holding a name, the
trigger schema and the ordered list of node schemas, as constructed at every
call site in the tests. -/
structure WorkflowCreate where
  name : String
  trigger : TriggerNodeCreate
  nodes : List NodeCreate
  deriving DecidableEq, Repr

/-- One call to the external `AutomationNodeService().create_node`, recording
the arguments `create_workflow` passes: the node type string, the label, the
service dict, and (absent for the trigger call) the resolved
`reference_node_id` and `output`. -/
structure CreateNodeCall where
  node_type : String
  label : String
  service : PyDict
  reference_node_id : Option Nat
  output : Option String
  deriving DecidableEq, Repr

/-- An externally observable event of `create_workflow`: the
`AutomationWorkflowService().create_workflow` call, then one
`createNode` event per `AutomationNodeService().create_node` call. -/
inductive WfEvent where
  | createWorkflowRec : String → WfEvent
  | createNode : CreateNodeCall → WfEvent
  deriving DecidableEq, Repr

/-- The running state of `create_workflow`: the next fresh ORM node id the
external service will assign, the `node_mapping` dict, and the trace of
service calls made so far. -/
structure WfState where
  nextId : Nat
  mapping : Mapping
  trace : List WfEvent
  deriving DecidableEq, Repr

/-- The outcome of `create_workflow`: success with the final state, or a
raised ValueError message together with the trace of service calls already
made when it was raised. -/
inductive WfOutcome where
  | ok : WfState → WfOutcome
  | err : List WfEvent → String → WfOutcome
  deriving DecidableEq, Repr

/-- The call record `create_workflow` passes to the node creation service
for a non-trigger node, given the resolved reference and output. -/
def nodeCall (n : NodeCreate) (rid : Nat) (out : String) : CreateNodeCall :=
  { node_type := n.type,
    label := n.label,
    service := n.to_orm_service_dict,
    reference_node_id := some rid,
    output := some out }

/-- The body of the `for node in workflow.nodes` loop (utils.py lines 68-81):
resolve the previous-node reference, call the node creation service, and
register the created node in the mapping under its ref and its ORM id. -/
def stepNode (st : WfState) (node : NodeCreate) : Except String WfState :=
  match node.to_orm_reference_node st.mapping with
  | Except.error e => Except.error e
  | Except.ok (reference_node_id, output) =>
      Except.ok
        { nextId := st.nextId + 1,
          mapping := insertEntity st.mapping st.nextId (AnyCreate.node node),
          trace := st.trace ++
            [WfEvent.createNode
              { node_type := node.type,
                label := node.label,
                service := node.to_orm_service_dict,
                reference_node_id := some reference_node_id,
                output := some output }] }

/-- Run the loop over the remaining nodes, stopping at the first raised
ValueError with the trace accumulated so far. -/
def runNodes (st : WfState) : List NodeCreate → WfOutcome
  | [] => WfOutcome.ok st
  | node :: rest =>
      match stepNode st node with
      | Except.error e => WfOutcome.err st.trace e
      | Except.ok st' => runNodes st' rest

/-- The `create_node` call made for the trigger (utils.py lines 53-61):
no `reference_node_id` and no `output` are passed. -/
def triggerCall (t : TriggerNodeCreate) : CreateNodeCall :=
  { node_type := t.type.toStr,
    label := t.label,
    service := t.to_orm_service_dict,
    reference_node_id := none,
    output := none }

/-- The state after the workflow record and the trigger node are created
(utils.py lines 46-66): the trigger is registered in the fresh mapping under
its ref and its ORM id (`startId`, the first id the external node service
assigns in this run). -/
def initState (wf : WorkflowCreate) (startId : Nat) : WfState :=
  { nextId := startId + 1,
    mapping := insertEntity [] startId (AnyCreate.trigger wf.trigger),
    trace := [WfEvent.createWorkflowRec wf.name,
              WfEvent.createNode (triggerCall wf.trigger)] }

/-- `create_workflow` (utils.py lines 37-83): create the workflow record,
create the trigger node, then create each node of `workflow.nodes` in list
order. `startId` is the first ORM id the external node creation service
assigns; successive calls get successive ids. -/
def create_workflow (wf : WorkflowCreate) (startId : Nat) : WfOutcome :=
  runNodes (initState wf startId) wf.nodes

/-- The automation application record, as far as `get_workflow` reads it. -/
structure AutomationRec where
  id : Nat
  workspace_id : Nat
  deriving DecidableEq, Repr

/-- The persisted workflow record, as far as `get_workflow` reads it. -/
structure AutomationWorkflowRec where
  id : Nat
  automation : AutomationRec
  deriving DecidableEq, Repr

/-- A workspace record. -/
structure WorkspaceRec where
  id : Nat
  deriving DecidableEq, Repr

/-- `get_workflow` (utils.py lines 26-34). The external
`AutomationWorkflowService().get_workflow(user, workflow_id)` is modelled by
passing its returned workflow directly; the function then raises ValueError
unless the workflow's automation belongs to the given workspace. -/
def get_workflow (serviceWorkflow : AutomationWorkflowRec)
    (workspace : WorkspaceRec) : Except String AutomationWorkflowRec :=
  if serviceWorkflow.automation.workspace_id ≠ workspace.id then
    Except.error "Workflow not in workspace"
  else
    Except.ok serviceWorkflow

/-- Modelled from the spec: the result of one call to the injected
generative-AI backend (`baserow.core.generative_ai`, not under src/) —
either a generated value or a raised `GenerativeAIPromptError` carrying an
error message. -/
inductive AiGenResult where
  | ok : String → AiGenResult
  | promptError : String → AiGenResult
  deriving DecidableEq, Repr

/-- The generated value of a successful backend result (only read on the
success path). -/
def AiGenResult.valueD : AiGenResult → String
  | .ok v => v
  | .promptError _ => ""

/-- The error message of a failed backend result, when any. -/
def AiGenResult.errorMsg : AiGenResult → Option String
  | .ok _ => none
  | .promptError m => some m

/-- Modelled from the spec: one piece of an AI prompt formula (the formula
language interpreter is external) — either literal text or a reference to a
field by id. -/
inductive PromptPart where
  | lit : String → PromptPart
  | fieldRef : Nat → PromptPart
  deriving DecidableEq, Repr

/-- A prompt formula: a concatenation of parts. -/
abbrev Prompt := List PromptPart

/-- Modelled from the spec: a table row as the task reads and writes it — an
id and the cell value per field id. -/
structure Row where
  id : Nat
  cells : List (Nat × String)
  deriving DecidableEq, Repr

/-- The value of a field in a row; a reference to a non-existent field
resolves to the empty string. -/
def Row.getCell (r : Row) (fieldId : Nat) : String :=
  match r.cells.find? (fun c => c.1 = fieldId) with
  | some c => c.2
  | none => ""

/-- Write a field's value in a row (replacing an existing cell, appending a
new one otherwise). -/
def Row.setCell (r : Row) (fieldId : Nat) (v : String) : Row :=
  { r with
    cells :=
      if r.cells.any (fun c => c.1 = fieldId) then
        r.cells.map (fun c => if c.1 = fieldId then (fieldId, v) else c)
      else r.cells ++ [(fieldId, v)] }

/-- Modelled from the spec: evaluation of the prompt formula against a row —
field references are substituted with the row's values, a reference to a
non-existent field resolving to empty. -/
def evalPrompt (r : Row) : Prompt → String
  | [] => ""
  | PromptPart.lit s :: rest => s ++ evalPrompt r rest
  | PromptPart.fieldRef fid :: rest => r.getCell fid ++ evalPrompt r rest

/-- Modelled from the spec: the AI field, as far as the background task reads
it — its id and its prompt formula. -/
structure AiField where
  id : Nat
  ai_prompt : Prompt
  deriving DecidableEq, Repr

/-- Modelled from the spec: a change-notification signal sent by the AI-field
task — `rows_updated` with the updated rows and the set of updated field ids,
or `rows_ai_values_generation_error` with the affected rows, the field id and
the backend's error message. -/
inductive AiSignal where
  | rows_updated : List Row → List Nat → AiSignal
  | rows_ai_values_generation_error : List Row → Nat → String → AiSignal
  deriving DecidableEq, Repr

/-- The outcome of one run of the task: the rows after the run, the signals
sent in order, and the re-raised error message, when any (the task is
retry-free: a raised backend error is propagated to the caller once, never
retried). -/
structure AiTaskOutcome where
  rows : List Row
  signals : List AiSignal
  raised : Option String
  deriving DecidableEq, Repr

/-- The first prompt error the backend raises over the requested rows, when
any. -/
def firstPromptError (backend : String → AiGenResult) (field : AiField)
    (rows : List Row) : Option String :=
  rows.findSome? (fun r => (backend (evalPrompt r field.ai_prompt)).errorMsg)

/-- Modelled from the spec: `generate_ai_values_for_rows`
(baserow_premium.fields.tasks, not under src/) — the thin retry-free
background job. It evaluates the field's prompt formula against each
requested row and calls the injected generative-AI backend; on success it
stores each backend output in the AI field's column and sends `rows_updated`
exactly once with the updated rows and the singleton updated-field-id set;
when the backend raises a prompt error it sends
`rows_ai_values_generation_error` exactly once with the affected rows, the
field and the error message, sends no `rows_updated`, leaves the rows
unchanged, and re-raises the error. -/
def generate_ai_values_for_rows (backend : String → AiGenResult)
    (field : AiField) (rows : List Row) : AiTaskOutcome :=
  match firstPromptError backend field rows with
  | some msg =>
      { rows := rows,
        signals := [AiSignal.rows_ai_values_generation_error rows field.id msg],
        raised := some msg }
  | none =>
      let updated := rows.map
        (fun r =>
          r.setCell field.id (backend (evalPrompt r field.ai_prompt)).valueD)
      { rows := updated,
        signals := [AiSignal.rows_updated updated [field.id]],
        raised := none }

/-- Modelled from the spec: the AI field's auto-update configuration, as far
as the rows-created wiring reads and writes it — the flag and the stored
auto-update user id (`none` once that user has been deleted). -/
structure AiAutoField where
  id : Nat
  ai_auto_update : Bool
  ai_auto_update_user_id : Option Nat
  deriving DecidableEq, Repr

/-- Modelled from the spec: one enqueued background task —
`generate_ai_values_for_rows.delay(user_id, field_id, row_ids)`. -/
structure EnqueuedTask where
  user_id : Nat
  field_id : Nat
  row_ids : List Nat
  deriving DecidableEq, Repr

/-- Modelled from the spec: the background-task wiring run for an AI field
when rows are created in its table (baserow_premium fields signal handler,
not under src/). When `ai_auto_update` is enabled it enqueues
`generate_ai_values_for_rows` once with the auto-update user id, the field id
and the created row ids, provided that user still exists and passes the
premium-license check (`licenseOk`); when the license check fails or the
auto-update user has been deleted it enqueues nothing and switches
`ai_auto_update` off. -/
def handle_rows_created (licenseOk : Nat → Bool) (field : AiAutoField)
    (row_ids : List Nat) : List EnqueuedTask × AiAutoField :=
  if field.ai_auto_update then
    match field.ai_auto_update_user_id with
    | some uid =>
        if licenseOk uid then
          ([{ user_id := uid, field_id := field.id, row_ids := row_ids }], field)
        else
          ([], { field with ai_auto_update := false })
    | none => ([], { field with ai_auto_update := false })
  else
    ([], field)

/-! ### Dictionary lemmas -/

theorem dictGet_insert_self (k : MapKey) (v : Nat × AnyCreate) (m : Mapping) :
    dictGet k (dictInsert k v m) = some v := by
  induction m with
  | nil => simp [dictInsert, dictGet]
  | cons p rest ih =>
    obtain ⟨k', v'⟩ := p
    by_cases h : k' = k
    · subst h
      simp [dictInsert, dictGet]
    · simp [dictInsert, dictGet, h, ih]

theorem dictGet_insert_ne (k k' : MapKey) (hne : k' ≠ k)
    (v : Nat × AnyCreate) (m : Mapping) :
    dictGet k (dictInsert k' v m) = dictGet k m := by
  induction m with
  | nil => simp [dictInsert, dictGet, hne]
  | cons p rest ih =>
    obtain ⟨k'', v''⟩ := p
    by_cases h : k'' = k'
    · subst h
      simp [dictInsert, dictGet, hne]
    · by_cases h2 : k'' = k
      · subst h2
        simp [dictInsert, dictGet, h]
      · simp [dictInsert, dictGet, h, h2, ih]

theorem mem_dictInsert (q : MapKey × (Nat × AnyCreate)) (k : MapKey)
    (v : Nat × AnyCreate) (m : Mapping) :
    q ∈ dictInsert k v m → q = (k, v) ∨ q ∈ m := by
  induction m with
  | nil => simp [dictInsert]
  | cons p rest ih =>
    obtain ⟨k', v'⟩ := p
    by_cases h : k' = k
    · subst h
      intro hq
      simp [dictInsert] at hq
      rcases hq with h1 | h1
      · exact Or.inl (by rw [h1])
      · exact Or.inr (List.mem_cons_of_mem _ h1)
    · intro hq
      simp only [dictInsert, if_neg h] at hq
      rw [List.mem_cons] at hq
      rcases hq with h1 | h1
      · exact Or.inr (List.mem_cons.mpr (Or.inl h1))
      · rcases ih h1 with h2 | h2
        · exact Or.inl h2
        · exact Or.inr (List.mem_cons_of_mem _ h2)

theorem dictGet_ref_insertEntity (r : String) (m : Mapping) (i : Nat)
    (c : AnyCreate) :
    dictGet (MapKey.ref r) (insertEntity m i c) =
      if c.ref = r then some (i, c) else dictGet (MapKey.ref r) m := by
  unfold insertEntity
  rw [dictGet_insert_ne _ _ (by simp)]
  by_cases h : c.ref = r
  · rw [if_pos h, h, dictGet_insert_self]
  · rw [if_neg h, dictGet_insert_ne _ _ (by simp [h])]

theorem dictGet_ormId_insertEntity (j : Nat) (m : Mapping) (i : Nat)
    (c : AnyCreate) :
    dictGet (MapKey.ormId j) (insertEntity m i c) =
      if j = i then some (i, c) else dictGet (MapKey.ormId j) m := by
  unfold insertEntity
  by_cases h : j = i
  · rw [if_pos h, h, dictGet_insert_self]
  · rw [if_neg h, dictGet_insert_ne _ _ (by simp [Ne.symm h]),
      dictGet_insert_ne _ _ (by simp)]

/-! ### Closed form of the node mapping -/

theorem dictGet_ref_buildMappingAux (es : List AnyCreate) :
    ∀ (m : Mapping) (i : Nat) (r : String),
      dictGet (MapKey.ref r) (buildMappingAux m i es) =
        match lastWithRef i es r with
        | some p => some p
        | none => dictGet (MapKey.ref r) m := by
  induction es with
  | nil => intro m i r; rfl
  | cons c rest ih =>
    intro m i r
    show dictGet (MapKey.ref r) (buildMappingAux (insertEntity m i c) (i + 1) rest)
      = _
    rw [ih]
    show _ = (match
        (match lastWithRef (i + 1) rest r with
         | some p => some p
         | none => if c.ref = r then some (i, c) else none) with
      | some p => some p
      | none => dictGet (MapKey.ref r) m)
    cases h : lastWithRef (i + 1) rest r with
    | some p => rfl
    | none =>
      rw [dictGet_ref_insertEntity]
      by_cases hc : c.ref = r
      · simp [hc]
      · simp [hc]

theorem dictGet_ormId_buildMappingAux (es : List AnyCreate) :
    ∀ (m : Mapping) (i j : Nat),
      dictGet (MapKey.ormId j) (buildMappingAux m i es) =
        match idLookup i es j with
        | some p => some p
        | none => dictGet (MapKey.ormId j) m := by
  induction es with
  | nil => intro m i j; rfl
  | cons c rest ih =>
    intro m i j
    show dictGet (MapKey.ormId j) (buildMappingAux (insertEntity m i c) (i + 1) rest)
      = _
    rw [ih]
    show _ = (match
        (match idLookup (i + 1) rest j with
         | some p => some p
         | none => if j = i then some (i, c) else none) with
      | some p => some p
      | none => dictGet (MapKey.ormId j) m)
    cases h : idLookup (i + 1) rest j with
    | some p => rfl
    | none =>
      rw [dictGet_ormId_insertEntity]
      by_cases hc : j = i
      · simp [hc]
      · simp [hc]

theorem lastWithRef_eq_none (es : List AnyCreate) :
    ∀ (i : Nat) (r : String),
      lastWithRef i es r = none ↔ ∀ c ∈ es, c.ref ≠ r := by
  induction es with
  | nil => intro i r; simp [lastWithRef]
  | cons c rest ih =>
    intro i r
    constructor
    · intro h
      unfold lastWithRef at h
      cases hr : lastWithRef (i + 1) rest r with
      | some p => rw [hr] at h; exact absurd h (by simp)
      | none =>
        rw [hr] at h
        by_cases hc : c.ref = r
        · rw [if_pos hc] at h; exact absurd h (by simp)
        · intro d hd
          rcases List.mem_cons.mp hd with h1 | h1
          · rw [h1]; exact hc
          · exact (ih (i + 1) r).mp hr d h1
    · intro h
      unfold lastWithRef
      rw [(ih (i + 1) r).mpr (fun d hd => h d (List.mem_cons_of_mem _ hd))]
      rw [if_neg (h c (List.mem_cons_self _ _))]

theorem lastWithRef_eq_some (es : List AnyCreate) :
    ∀ (i : Nat) (r : String) (p : Nat × AnyCreate),
      lastWithRef i es r = some p →
      ∃ j, ∃ hj : j < es.length,
        (es.get ⟨j, hj⟩).ref = r ∧ p = (i + j, es.get ⟨j, hj⟩) ∧
        ∀ l, ∀ hl : l < es.length, j < l → (es.get ⟨l, hl⟩).ref ≠ r := by
  induction es with
  | nil => intro i r p h; exact absurd h (by simp [lastWithRef])
  | cons c rest ih =>
    intro i r p h
    unfold lastWithRef at h
    cases hr : lastWithRef (i + 1) rest r with
    | some q =>
      rw [hr] at h
      obtain rfl : q = p := by simpa using h
      obtain ⟨j, hj, hrf, hp, hlat⟩ := ih (i + 1) r q hr
      refine ⟨j + 1, by simpa using Nat.succ_lt_succ hj, ?_, ?_, ?_⟩
      · simpa using hrf
      · rw [hp]; simp; omega
      · intro l hl hjl
        cases l with
        | zero => omega
        | succ l' =>
          intro hcon
          exact hlat l' (by simpa using hl) (by omega) (by simpa using hcon)
    | none =>
      rw [hr] at h
      by_cases hc : c.ref = r
      · rw [if_pos hc] at h
        obtain rfl : (i, c) = p := by simpa using h
        refine ⟨0, by simp, by simpa using hc, by simp, ?_⟩
        intro l hl hjl
        cases l with
        | zero => omega
        | succ l' =>
          have := (lastWithRef_eq_none rest (i + 1) r).mp hr
          intro hcon
          exact this (rest.get ⟨l', by simpa using hl⟩) (List.get_mem _ _ _)
            (by simpa using hcon)
      · rw [if_neg hc] at h
        exact absurd h (by simp)

theorem lastWithRef_of_latest (es : List AnyCreate) :
    ∀ (i : Nat) (r : String) (j : Nat) (hj : j < es.length),
      (es.get ⟨j, hj⟩).ref = r →
      (∀ l, ∀ hl : l < es.length, j < l → (es.get ⟨l, hl⟩).ref ≠ r) →
      lastWithRef i es r = some (i + j, es.get ⟨j, hj⟩) := by
  induction es with
  | nil => intro i r j hj; exact absurd hj (by simp)
  | cons c rest ih =>
    intro i r j hj hrf hlat
    unfold lastWithRef
    cases j with
    | zero =>
      have hnone : lastWithRef (i + 1) rest r = none := by
        rw [lastWithRef_eq_none]
        intro d hd
        obtain ⟨l', hl', rfl⟩ := List.mem_iff_get.mp hd
        exact hlat (l' + 1) (by simp) (Nat.succ_pos _)
      rw [hnone]
      simp only [List.get] at hrf ⊢
      rw [if_pos hrf]
      simp
    | succ j' =>
      have hj' : j' < rest.length := by simpa using hj
      have : lastWithRef (i + 1) rest r = some ((i + 1) + j', rest.get ⟨j', hj'⟩) := by
        refine ih (i + 1) r j' hj' (by simpa using hrf) ?_
        intro l hl hjl
        exact hlat (l + 1) (by simpa using Nat.succ_lt_succ hl)
          (Nat.succ_lt_succ hjl)
      rw [this]
      simp only [List.get]
      congr 1
      ext
      · omega
      · rfl

theorem idLookup_none_of_lt (es : List AnyCreate) :
    ∀ (i j : Nat), j < i → idLookup i es j = none := by
  induction es with
  | nil => intro i j _; rfl
  | cons c rest ih =>
    intro i j hj
    unfold idLookup
    rw [ih (i + 1) j (by omega), if_neg (by omega)]

theorem idLookup_of_lt (es : List AnyCreate) :
    ∀ (i k : Nat) (hk : k < es.length),
      idLookup i es (i + k) = some (i + k, es.get ⟨k, hk⟩) := by
  induction es with
  | nil => intro i k hk; exact absurd hk (by simp)
  | cons c rest ih =>
    intro i k hk
    unfold idLookup
    cases k with
    | zero =>
      rw [idLookup_none_of_lt rest (i + 1) (i + 0) (by omega)]
      simp
    | succ k' =>
      have hk' : k' < rest.length := by simpa using hk
      have harith : i + (k' + 1) = (i + 1) + k' := by omega
      rw [harith, ih (i + 1) k' hk']
      simp only [List.get]

theorem buildMappingAux_key_domain (es : List AnyCreate) :
    ∀ (m : Mapping) (i : Nat) (key : MapKey) (v : Nat × AnyCreate),
      (key, v) ∈ buildMappingAux m i es →
      (key, v) ∈ m ∨
      (∃ k, k < es.length ∧ key = MapKey.ormId (i + k)) ∨
      (∃ k, ∃ hk : k < es.length, key = MapKey.ref ((es.get ⟨k, hk⟩).ref)) := by
  induction es with
  | nil => intro m i key v h; exact Or.inl h
  | cons c rest ih =>
    intro m i key v h
    rcases ih (insertEntity m i c) (i + 1) key v h with h1 | h1 | h1
    · rcases mem_dictInsert _ _ _ _ h1 with h2 | h2
      · refine Or.inr (Or.inl ⟨0, by simp, ?_⟩)
        have := congrArg Prod.fst h2
        simpa using this
      · rcases mem_dictInsert _ _ _ _ h2 with h3 | h3
        · refine Or.inr (Or.inr ⟨0, by simp, ?_⟩)
          have := congrArg Prod.fst h3
          simpa using this
        · exact Or.inl h3
    · obtain ⟨k, hk, hkey⟩ := h1
      exact Or.inr (Or.inl ⟨k + 1, by simpa using Nat.succ_lt_succ hk,
        by rw [hkey]; congr 1; omega⟩)
    · obtain ⟨k, hk, hkey⟩ := h1
      refine Or.inr (Or.inr ⟨k + 1, by simpa using Nat.succ_lt_succ hk, ?_⟩)
      rw [hkey]
      simp only [List.get]

/-! ### Structure of a `create_workflow` run -/

theorem runNodes_append (pre : List NodeCreate) :
    ∀ (st st1 : WfState) (rest : List NodeCreate),
      runNodes st pre = WfOutcome.ok st1 →
      runNodes st (pre ++ rest) = runNodes st1 rest := by
  induction pre with
  | nil =>
    intro st st1 rest h
    obtain rfl : st = st1 := by simpa [runNodes] using h
    rfl
  | cons n pre2 ih =>
    intro st st1 rest h
    unfold runNodes at h
    cases hstep : stepNode st n with
    | error e =>
      rw [hstep] at h
      exact absurd h (by simp)
    | ok st2 =>
      rw [hstep] at h
      calc runNodes st ((n :: pre2) ++ rest)
          = runNodes st2 (pre2 ++ rest) := by
            show runNodes st (n :: (pre2 ++ rest)) = _
            simp only [runNodes, hstep]
        _ = runNodes st1 rest := ih st2 st1 rest h

theorem runNodes_ok_spec (nodes : List NodeCreate) :
    ∀ (st st2 : WfState), runNodes st nodes = WfOutcome.ok st2 →
      st2.nextId = st.nextId + nodes.length ∧
      st2.mapping =
        buildMappingAux st.mapping st.nextId (nodes.map AnyCreate.node) ∧
      ∃ calls : List CreateNodeCall,
        st2.trace = st.trace ++ calls.map WfEvent.createNode ∧
        calls.length = nodes.length ∧
        ∀ k, ∀ hk : k < nodes.length, ∀ hk2 : k < calls.length,
          ∃ rid out,
            (nodes.get ⟨k, hk⟩).to_orm_reference_node
              (buildMappingAux st.mapping st.nextId
                ((nodes.take k).map AnyCreate.node)) = Except.ok (rid, out) ∧
            calls.get ⟨k, hk2⟩ = nodeCall (nodes.get ⟨k, hk⟩) rid out := by
  induction nodes with
  | nil =>
    intro st st2 h
    obtain rfl : st = st2 := by simpa [runNodes] using h
    refine ⟨by simp, rfl, [], by simp, rfl, ?_⟩
    intro k hk
    exact absurd hk (by simp)
  | cons n rest ih =>
    intro st st2 h
    unfold runNodes at h
    cases hstep : stepNode st n with
    | error e =>
      rw [hstep] at h
      exact absurd h (by simp)
    | ok st1 =>
      rw [hstep] at h
      unfold stepNode at hstep
      cases hres : n.to_orm_reference_node st.mapping with
      | error e =>
        rw [hres] at hstep
        exact absurd hstep (by simp)
      | ok rp =>
        obtain ⟨rid, out⟩ := rp
        rw [hres] at hstep
        have hst1 : st1 =
            { nextId := st.nextId + 1,
              mapping := insertEntity st.mapping st.nextId (AnyCreate.node n),
              trace := st.trace ++ [WfEvent.createNode (nodeCall n rid out)] } := by
          have := (Except.ok.injEq _ _).mp hstep
          rw [← this]
          rfl
        obtain ⟨hnext, hmap, calls, htr, hlen, hidx⟩ := ih st1 st2 h
        refine ⟨?_, ?_, nodeCall n rid out :: calls, ?_, by simp [hlen], ?_⟩
        · rw [hnext, hst1]
          show st.nextId + 1 + rest.length = st.nextId + (rest.length + 1)
          omega
        · rw [hmap, hst1]
          rfl
        · rw [htr, hst1]
          simp
        · intro k hk hk2
          cases k with
          | zero => exact ⟨rid, out, hres, rfl⟩
          | succ k2 =>
            have hk3 : k2 < rest.length := by simpa using hk
            have hk4 : k2 < calls.length := by simpa using hk2
            obtain ⟨rid2, out2, hres2, hcall2⟩ := hidx k2 hk3 hk4
            rw [hst1] at hres2
            exact ⟨rid2, out2, hres2, hcall2⟩

/-- A successful reference resolution found the previous node under the
ref key, and passes its ORM id through unchanged. -/
theorem to_orm_reference_node_ok_dictGet (n : NodeCreate) (m : Mapping)
    (rid : Nat) (out : String) :
    n.to_orm_reference_node m = Except.ok (rid, out) →
    ∃ prev, dictGet (MapKey.ref n.previous_node_ref) m = some (rid, prev) := by
  intro h
  unfold NodeCreate.to_orm_reference_node at h
  split at h
  · exact absurd h (by simp)
  · rename_i pid prev heq
    split at h
    · split at h
      · rename_i edge hf
        have hpid : pid = rid := by
          simpa using congrArg (fun x => x.1) ((Except.ok.injEq _ _).mp h)
        exact ⟨prev, by rw [heq, hpid]⟩
      · exact absurd h (by simp)
    · have hpid : pid = rid := by
        simpa using congrArg (fun x => x.1) ((Except.ok.injEq _ _).mp h)
      exact ⟨prev, by rw [heq, hpid]⟩

/-- `List.find?` returns the first match: characterization by index. -/
theorem find?_first_label (es : List RouterEdgeCreate) :
    ∀ (lbl : String) (j : Nat) (hj : j < es.length),
      (es.get ⟨j, hj⟩).label = lbl →
      (∀ l, ∀ hl : l < es.length, l < j → (es.get ⟨l, hl⟩).label ≠ lbl) →
      es.find? (fun b => b.label = lbl) = some (es.get ⟨j, hj⟩) := by
  induction es with
  | nil =>
    intro lbl j hj
    exact absurd hj (by simp)
  | cons c rest ih =>
    intro lbl j hj hlbl hfirst
    cases j with
    | zero =>
      have hc : c.label = lbl := by simpa using hlbl
      show List.find? (fun b => decide (b.label = lbl)) (c :: rest) = some c
      exact List.find?_cons_of_pos _ (by simp [hc])
    | succ j2 =>
      have hcne : (fun (b : RouterEdgeCreate) => decide (b.label = lbl)) c = false := by
        simpa using hfirst 0 (by simp) (Nat.succ_pos _)
      have hj2 : j2 < rest.length := by simpa using hj
      rw [List.find?_cons_of_neg _ (by simpa using hcne)]
      exact ih lbl j2 hj2 (by simpa using hlbl)
        (fun l hl hlt => hfirst (l + 1) (by simpa using Nat.succ_lt_succ hl)
          (Nat.succ_lt_succ hlt))

theorem find?_none_label (es : List RouterEdgeCreate) (lbl : String) :
    (∀ b ∈ es, b.label ≠ lbl) →
    es.find? (fun b => b.label = lbl) = none := by
  intro h
  rw [List.find?_eq_none]
  intro b hb
  simpa using h b hb

/-! ### Further helper lemmas -/

/-- Reference resolution, reduced once the previous node has been found. -/
theorem to_orm_reference_node_eq (n : NodeCreate) (m : Mapping) (pid : Nat)
    (prev : AnyCreate)
    (hfound : dictGet (MapKey.ref n.previous_node_ref) m = some (pid, prev)) :
    n.to_orm_reference_node m =
      if n.router_edge_label ≠ "" ∧ prev.type = "router" then
        match prev.edges.find? (fun edge => edge.label = n.router_edge_label) with
        | some edge => Except.ok (pid, edge.uid)
        | none =>
            Except.error ("Branch label '" ++ n.router_edge_label
              ++ "' not found in previous router node")
      else Except.ok (pid, "") := by
  unfold NodeCreate.to_orm_reference_node
  rw [hfound]

/-- Prompt evaluation distributes over concatenation of formulas. -/
theorem evalPrompt_append (r : Row) (p1 p2 : Prompt) :
    evalPrompt r (p1 ++ p2) = evalPrompt r p1 ++ evalPrompt r p2 := by
  induction p1 with
  | nil => simp [evalPrompt]
  | cons x p1 ih =>
    cases x with
    | lit s => simp [evalPrompt, ih, String.append_assoc]
    | fieldRef fid => simp [evalPrompt, ih, String.append_assoc]

/-! ### The claims -/

/-- C8: `TriggerNodeCreate.to_orm_service_dict` returns the periodic-interval
settings (interval, minute, hour, day_of_week, day_of_month) when the trigger
type is periodic and `periodic_interval` is set; returns a dict holding only
the monitored `table_id` when the type is one of rows_created, rows_updated,
rows_deleted and `rows_triggers_settings` is set; and returns the empty dict
in every other case, including http_trigger and the cases where the matching
settings object is absent. -/
theorem C8_trigger_service_dict (t : TriggerNodeCreate) :
    (∀ p, t.type = TriggerType.periodic → t.periodic_interval = some p →
      t.to_orm_service_dict =
        [("interval", PyVal.vStr p.interval.toStr),
         ("minute", optIntVal p.minute),
         ("hour", optIntVal p.hour),
         ("day_of_week", optIntVal p.day_of_week),
         ("day_of_month", optIntVal p.day_of_month)]) ∧
    (∀ r, (t.type = TriggerType.rows_created ∨ t.type = TriggerType.rows_updated ∨
        t.type = TriggerType.rows_deleted) →
      t.rows_triggers_settings = some r →
      t.to_orm_service_dict = [("table_id", PyVal.vInt r.table_id)]) ∧
    (((t.type = TriggerType.periodic ∧ t.periodic_interval = none) ∨
      ((t.type = TriggerType.rows_created ∨ t.type = TriggerType.rows_updated ∨
        t.type = TriggerType.rows_deleted) ∧ t.rows_triggers_settings = none) ∨
      t.type = TriggerType.http_trigger) →
      t.to_orm_service_dict = []) := by
  obtain ⟨rf, lb, ty, pi, rts⟩ := t
  refine ⟨?_, ?_, ?_⟩
  · rintro p hty hpi
    subst hty
    subst hpi
    simp [TriggerNodeCreate.to_orm_service_dict, PeriodicTriggerSettings.model_dump]
  · rintro r hty hrts
    subst hrts
    rcases hty with h | h | h <;> subst h <;> cases pi <;>
      simp [TriggerNodeCreate.to_orm_service_dict, RowsTriggersSettings.model_dump]
  · rintro (⟨hty, hpi⟩ | ⟨hty, hrts⟩ | hty)
    · subst hty
      subst hpi
      cases rts <;> simp [TriggerNodeCreate.to_orm_service_dict]
    · rcases hty with h | h | h <;> subst h <;> subst hrts <;> cases pi <;>
        simp [TriggerNodeCreate.to_orm_service_dict]
    · subst hty
      cases pi <;> cases rts <;> simp [TriggerNodeCreate.to_orm_service_dict]

/-- Witness for C8 at a concrete periodic trigger and a concrete rows_created
trigger. -/
theorem C8_trigger_service_dict_witness :
    TriggerNodeCreate.to_orm_service_dict
        { ref := "t1", label := "T", type := TriggerType.periodic,
          periodic_interval := some { interval := Interval.HOUR },
          rows_triggers_settings := none } =
      [("interval", PyVal.vStr "HOUR"), ("minute", PyVal.vInt 0),
       ("hour", PyVal.vInt 0), ("day_of_week", PyVal.vInt 0),
       ("day_of_month", PyVal.vInt 1)] ∧
    TriggerNodeCreate.to_orm_service_dict
        { ref := "t2", label := "T", type := TriggerType.rows_created,
          periodic_interval := none,
          rows_triggers_settings := some { table_id := 42 } } =
      [("table_id", PyVal.vInt 42)] ∧
    TriggerNodeCreate.to_orm_service_dict
        { ref := "t3", label := "T", type := TriggerType.http_trigger,
          periodic_interval := none, rows_triggers_settings := none } = [] :=
  ⟨(C8_trigger_service_dict _).1 { interval := Interval.HOUR } rfl rfl,
   (C8_trigger_service_dict _).2.1 { table_id := 42 } (Or.inl rfl) rfl,
   (C8_trigger_service_dict _).2.2 (Or.inr (Or.inr rfl))⟩

/-- C10: `get_workflow` returns the workflow obtained from the workflow
service if and only if that workflow's automation belongs to the given
workspace; otherwise it raises a ValueError, so a caller can never obtain a
workflow from a different workspace through this helper. -/
theorem C10_get_workflow_workspace_check (w : AutomationWorkflowRec)
    (ws : WorkspaceRec) :
    (get_workflow w ws = Except.ok w ↔ w.automation.workspace_id = ws.id) ∧
    (w.automation.workspace_id ≠ ws.id →
      get_workflow w ws = Except.error "Workflow not in workspace") ∧
    (∀ w2, get_workflow w ws = Except.ok w2 →
      w2 = w ∧ w2.automation.workspace_id = ws.id) := by
  by_cases h : w.automation.workspace_id = ws.id
  · refine ⟨by simp [get_workflow, h], fun hne => absurd h hne, ?_⟩
    intro w2 hok
    simp only [get_workflow, h] at hok
    simp at hok
    exact ⟨hok.symm, hok ▸ h⟩
  · refine ⟨by simp [get_workflow, h], fun _ => by simp [get_workflow, h], ?_⟩
    intro w2 hok
    simp [get_workflow, h] at hok

/-- Witness for C10: a workflow in the right workspace is returned, one in a
different workspace raises. -/
theorem C10_get_workflow_workspace_check_witness :
    get_workflow { id := 1, automation := { id := 2, workspace_id := 7 } }
        { id := 7 } =
      Except.ok { id := 1, automation := { id := 2, workspace_id := 7 } } ∧
    get_workflow { id := 1, automation := { id := 2, workspace_id := 7 } }
        { id := 9 } =
      Except.error "Workflow not in workspace" :=
  ⟨(C10_get_workflow_workspace_check _ _).1.mpr rfl,
   (C10_get_workflow_workspace_check
      { id := 1, automation := { id := 2, workspace_id := 7 } }
      { id := 9 }).2.1 (by decide)⟩

/-- C2 counterexample: the service dict of a row action does NOT carry the
full configuration. Two update_row actions that differ in both the values to
write and the row identifier translate to the same ORM service dict, which
holds only the table id. -/
theorem C2_counterexample :
    NodeCreate.to_orm_service_dict
        { ref := "a", label := "U", previous_node_ref := "t",
          kind := NodeKind.update_row 5 "1" [("field_1", PyVal.vStr "x")] } =
      NodeCreate.to_orm_service_dict
        { ref := "a", label := "U", previous_node_ref := "t",
          kind := NodeKind.update_row 5 "2" [] } ∧
    NodeCreate.to_orm_service_dict
        { ref := "a", label := "U", previous_node_ref := "t",
          kind := NodeKind.update_row 5 "1" [("field_1", PyVal.vStr "x")] } =
      [("table_id", PyVal.vInt 5)] ∧
    NodeKind.update_row 5 "1" [("field_1", PyVal.vStr "x")] ≠
      NodeKind.update_row 5 "2" ([] : PyDict) := by
  refine ⟨rfl, rfl, ?_⟩
  decide

/-- C2 (amended): for every create_row and update_row action node, the
translation from schema object to ORM service call carries only the table id:
the service dict is exactly the singleton `table_id` dict, and the values (and
the row identifier for update_row) are not part of it. -/
theorem C2_row_action_service_dict (n : NodeCreate) (tid : Int) :
    ((∃ vs, n.kind = NodeKind.create_row tid vs) ∨
     (∃ row vs, n.kind = NodeKind.update_row tid row vs)) →
    n.to_orm_service_dict = [("table_id", PyVal.vInt tid)] := by
  rintro (⟨vs, hk⟩ | ⟨row, vs, hk⟩) <;>
    simp [NodeCreate.to_orm_service_dict, hk]

/-- Witness for the amended C2 at a concrete create_row node. -/
theorem C2_row_action_service_dict_witness :
    NodeCreate.to_orm_service_dict
        { ref := "c", label := "C", previous_node_ref := "t",
          kind := NodeKind.create_row 7 [("f", PyVal.vInt 3)] } =
      [("table_id", PyVal.vInt 7)] :=
  C2_row_action_service_dict _ 7 (Or.inl ⟨_, rfl⟩)

/-- C6: when the generative-AI backend raises a prompt error, the task sends
the `rows_ai_values_generation_error` signal exactly once, carrying the
affected rows, the field and the backend's error message; it does not send
`rows_updated`; it re-raises the error (retry-free) and leaves the rows
unchanged. -/
theorem C6_generate_prompt_error (backend : String → AiGenResult)
    (field : AiField) (rows : List Row) (msg : String)
    (h : firstPromptError backend field rows = some msg) :
    (generate_ai_values_for_rows backend field rows).signals =
      [AiSignal.rows_ai_values_generation_error rows field.id msg] ∧
    (∀ rs ids, AiSignal.rows_updated rs ids ∉
      (generate_ai_values_for_rows backend field rows).signals) ∧
    (generate_ai_values_for_rows backend field rows).raised = some msg ∧
    (generate_ai_values_for_rows backend field rows).rows = rows := by
  unfold generate_ai_values_for_rows
  rw [h]
  refine ⟨rfl, ?_, rfl, rfl⟩
  intro rs ids hmem
  simp at hmem

/-- Witness for C6: a backend that always raises. -/
theorem C6_generate_prompt_error_witness :
    (generate_ai_values_for_rows (fun _ => AiGenResult.promptError "Test error")
        { id := 9, ai_prompt := [PromptPart.lit "Hi"] }
        [{ id := 1, cells := [] }]).signals =
      [AiSignal.rows_ai_values_generation_error [{ id := 1, cells := [] }] 9
        "Test error"] ∧
    (generate_ai_values_for_rows (fun _ => AiGenResult.promptError "Test error")
        { id := 9, ai_prompt := [PromptPart.lit "Hi"] }
        [{ id := 1, cells := [] }]).raised = some "Test error" :=
  ⟨(C6_generate_prompt_error (fun _ => AiGenResult.promptError "Test error")
      { id := 9, ai_prompt := [PromptPart.lit "Hi"] }
      [{ id := 1, cells := [] }] "Test error" rfl).1,
   (C6_generate_prompt_error (fun _ => AiGenResult.promptError "Test error")
      { id := 9, ai_prompt := [PromptPart.lit "Hi"] }
      [{ id := 1, cells := [] }] "Test error" rfl).2.2.1⟩

/-- C7: when rows are created in a table with an auto-updating AI field, the
task is enqueued exactly once with the auto-update user id, the field id and
the created row ids, provided that user exists and passes the license check;
if the license check fails or the auto-update user has been deleted, nothing
is enqueued and the field's `ai_auto_update` flag is switched off. -/
theorem C7_auto_update_enqueue (licenseOk : Nat → Bool) (field : AiAutoField)
    (row_ids : List Nat) (hflag : field.ai_auto_update = true) :
    (∀ uid, field.ai_auto_update_user_id = some uid → licenseOk uid = true →
      handle_rows_created licenseOk field row_ids =
        ([{ user_id := uid, field_id := field.id, row_ids := row_ids }],
          field)) ∧
    (∀ uid, field.ai_auto_update_user_id = some uid → licenseOk uid = false →
      handle_rows_created licenseOk field row_ids =
        ([], { field with ai_auto_update := false })) ∧
    (field.ai_auto_update_user_id = none →
      handle_rows_created licenseOk field row_ids =
        ([], { field with ai_auto_update := false })) := by
  refine ⟨?_, ?_, ?_⟩
  · intro uid huid hlic
    simp [handle_rows_created, hflag, huid, hlic]
  · intro uid huid hlic
    simp [handle_rows_created, hflag, huid, hlic]
  · intro hnone
    simp [handle_rows_created, hflag, hnone]

/-- Witness for C7: licensed user enqueues once; unlicensed or deleted user
disables the flag. -/
theorem C7_auto_update_enqueue_witness :
    handle_rows_created (fun u => u = 4)
        { id := 11, ai_auto_update := true, ai_auto_update_user_id := some 4 }
        [1, 2] =
      ([{ user_id := 4, field_id := 11, row_ids := [1, 2] }],
        { id := 11, ai_auto_update := true, ai_auto_update_user_id := some 4 }) ∧
    handle_rows_created (fun _ => false)
        { id := 11, ai_auto_update := true, ai_auto_update_user_id := some 4 }
        [1, 2] =
      ([], { id := 11, ai_auto_update := false,
             ai_auto_update_user_id := some 4 }) ∧
    handle_rows_created (fun _ => true)
        { id := 11, ai_auto_update := true, ai_auto_update_user_id := none }
        [1, 2] =
      ([], { id := 11, ai_auto_update := false,
             ai_auto_update_user_id := none }) :=
  ⟨(C7_auto_update_enqueue _ _ [1, 2] rfl).1 4 rfl (by decide),
   (C7_auto_update_enqueue _ _ [1, 2] rfl).2.1 4 rfl rfl,
   (C7_auto_update_enqueue _ _ [1, 2] rfl).2.2 rfl⟩

/-- C5: when the backend succeeds, `generate_ai_values_for_rows` stores the
backend's output in the AI field's column for each requested row — the prompt
formula being evaluated against the row so field references are substituted
with the row's values, a reference to a non-existent field resolving to
empty — and sends `rows_updated` exactly once with the updated rows and
`updated_field_ids` the singleton set of the field id, raising nothing. -/
theorem C5_generate_success (backend : String → AiGenResult) (field : AiField)
    (rows : List Row) (vals : Row → String)
    (hb : ∀ r ∈ rows,
      backend (evalPrompt r field.ai_prompt) = AiGenResult.ok (vals r)) :
    (generate_ai_values_for_rows backend field rows).rows =
      rows.map (fun r => r.setCell field.id (vals r)) ∧
    (generate_ai_values_for_rows backend field rows).signals =
      [AiSignal.rows_updated (rows.map (fun r => r.setCell field.id (vals r)))
        [field.id]] ∧
    (generate_ai_values_for_rows backend field rows).raised = none ∧
    (∀ (r : Row) (pre post : Prompt) (fid : Nat),
      evalPrompt r (pre ++ PromptPart.fieldRef fid :: post) =
        evalPrompt r pre ++ (r.getCell fid ++ evalPrompt r post)) ∧
    (∀ (r : Row) (fid : Nat), (∀ c ∈ r.cells, c.1 ≠ fid) →
      r.getCell fid = "") := by
  have hnone : firstPromptError backend field rows = none := by
    unfold firstPromptError
    rw [List.findSome?_eq_none_iff]
    intro r hr
    rw [hb r hr]
    rfl
  have hmapeq :
      rows.map (fun r =>
          r.setCell field.id (backend (evalPrompt r field.ai_prompt)).valueD) =
        rows.map (fun r => r.setCell field.id (vals r)) := by
    refine List.map_congr_left ?_
    intro r hr
    rw [hb r hr]
    rfl
  have hout : generate_ai_values_for_rows backend field rows =
      { rows := rows.map (fun r =>
          r.setCell field.id (backend (evalPrompt r field.ai_prompt)).valueD),
        signals := [AiSignal.rows_updated
          (rows.map (fun r =>
            r.setCell field.id (backend (evalPrompt r field.ai_prompt)).valueD))
          [field.id]],
        raised := none } := by
    unfold generate_ai_values_for_rows
    rw [hnone]
  refine ⟨?_, ?_, ?_, ?_, ?_⟩
  · rw [hout]
    exact hmapeq
  · rw [hout]
    show [AiSignal.rows_updated _ [field.id]] = _
    rw [hmapeq]
  · rw [hout]
  · intro r pre post fid
    rw [evalPrompt_append]
    rfl
  · intro r fid hno
    unfold Row.getCell
    rw [List.find?_eq_none.mpr]
    intro c hc
    simpa using hno c hc

/-- Witness for C5: a concrete backend, field and row; the generated value
lands in the AI field's column and `rows_updated` is sent once. -/
theorem C5_generate_success_witness :
    (generate_ai_values_for_rows (fun s => AiGenResult.ok ("Generated: " ++ s))
        { id := 9,
          ai_prompt := [PromptPart.lit "Hello ", PromptPart.fieldRef 3] }
        [{ id := 1, cells := [(3, "Bob")] }]).rows =
      [{ id := 1, cells := [(3, "Bob"), (9, "Generated: Hello Bob")] }] ∧
    (generate_ai_values_for_rows (fun s => AiGenResult.ok ("Generated: " ++ s))
        { id := 9,
          ai_prompt := [PromptPart.lit "Hello ", PromptPart.fieldRef 3] }
        [{ id := 1, cells := [(3, "Bob")] }]).signals =
      [AiSignal.rows_updated
        [{ id := 1, cells := [(3, "Bob"), (9, "Generated: Hello Bob")] }] [9]] ∧
    (generate_ai_values_for_rows (fun s => AiGenResult.ok ("Generated: " ++ s))
        { id := 9,
          ai_prompt := [PromptPart.lit "Hello ", PromptPart.fieldRef 3] }
        [{ id := 1, cells := [(3, "Bob")] }]).raised = none := by
  have h := C5_generate_success
    (fun s => AiGenResult.ok ("Generated: " ++ s))
    { id := 9, ai_prompt := [PromptPart.lit "Hello ", PromptPart.fieldRef 3] }
    [{ id := 1, cells := [(3, "Bob")] }]
    (fun r => "Generated: " ++
      evalPrompt r [PromptPart.lit "Hello ", PromptPart.fieldRef 3])
    (fun r _ => rfl)
  exact ⟨h.1, h.2.1, h.2.2.1⟩

/-- C3: when a node's `router_edge_label` is non-empty and its previous node
is a router, edge resolution returns as output the uid of the first branch
of that router whose label equals `router_edge_label` — the same uid the
router's service dict assigns to that branch — and raises ValueError if no
branch label matches; when `router_edge_label` is empty or the previous node
is not a router, the returned output is the empty string. -/
theorem C3_router_edge_resolution (n : NodeCreate) (node_mapping : Mapping)
    (prevId : Nat) (prev : AnyCreate)
    (hfound : dictGet (MapKey.ref n.previous_node_ref) node_mapping =
      some (prevId, prev)) :
    (∀ j, ∀ hj : j < prev.edges.length,
      prev.type = "router" → n.router_edge_label ≠ "" →
      (prev.edges.get ⟨j, hj⟩).label = n.router_edge_label →
      (∀ l, ∀ hl : l < prev.edges.length, l < j →
        (prev.edges.get ⟨l, hl⟩).label ≠ n.router_edge_label) →
      n.to_orm_reference_node node_mapping =
        Except.ok (prevId, (prev.edges.get ⟨j, hj⟩).uid) ∧
      ∀ nr : NodeCreate, prev = AnyCreate.node nr →
        nr.to_orm_service_dict =
          [("edges", PyVal.vDicts
            (prev.edges.map RouterEdgeCreate.to_orm_service_dict))] ∧
        (prev.edges.map RouterEdgeCreate.to_orm_service_dict).get
            ⟨j, by simpa using hj⟩ =
          [("uid", (prev.edges.get ⟨j, hj⟩).uid),
           ("label", (prev.edges.get ⟨j, hj⟩).label)]) ∧
    (prev.type = "router" → n.router_edge_label ≠ "" →
      (∀ b ∈ prev.edges, b.label ≠ n.router_edge_label) →
      n.to_orm_reference_node node_mapping =
        Except.error ("Branch label '" ++ n.router_edge_label ++
          "' not found in previous router node")) ∧
    ((n.router_edge_label = "" ∨ prev.type ≠ "router") →
      n.to_orm_reference_node node_mapping = Except.ok (prevId, "")) := by
  refine ⟨?_, ?_, ?_⟩
  · intro j hj hrt hlbl hget hfirst
    constructor
    · rw [to_orm_reference_node_eq n node_mapping prevId prev hfound,
        if_pos ⟨hlbl, hrt⟩,
        find?_first_label prev.edges n.router_edge_label j hj hget hfirst]
    · intro nr hnr
      subst hnr
      obtain ⟨es, hkind⟩ : ∃ es, nr.kind = NodeKind.router es := by
        cases hk : nr.kind with
        | router es => exact ⟨es, rfl⟩
        | smtp_email a b c d e f =>
          exact absurd hrt (by simp [AnyCreate.type, NodeCreate.type, hk])
        | create_row a b =>
          exact absurd hrt (by simp [AnyCreate.type, NodeCreate.type, hk])
        | update_row a b c =>
          exact absurd hrt (by simp [AnyCreate.type, NodeCreate.type, hk])
        | delete_row a b =>
          exact absurd hrt (by simp [AnyCreate.type, NodeCreate.type, hk])
        | ai_agent a b c d =>
          exact absurd hrt (by simp [AnyCreate.type, NodeCreate.type, hk])
      have hedges : (AnyCreate.node nr).edges = es := by
        simp [AnyCreate.edges, NodeCreate.edges, hkind]
      constructor
      · rw [hedges]
        simp [NodeCreate.to_orm_service_dict, hkind,
          RouterEdgeCreate.to_orm_service_dict]
      · rw [List.get_eq_getElem, List.get_eq_getElem, List.getElem_map]
        rfl
  · intro hrt hlbl hnone
    rw [to_orm_reference_node_eq n node_mapping prevId prev hfound,
      if_pos ⟨hlbl, hrt⟩, find?_none_label _ _ hnone]
  · intro h
    rw [to_orm_reference_node_eq n node_mapping prevId prev hfound, if_neg]
    rcases h with h | h
    · intro hc
      exact hc.1 h
    · intro hc
      exact h hc.2

/-- Witness for C3: a router with branches yes/no; linking from branch "no"
returns its uid. -/
theorem C3_router_edge_resolution_witness :
    NodeCreate.to_orm_reference_node
        { ref := "a", label := "A", previous_node_ref := "r",
          router_edge_label := "no", kind := NodeKind.create_row 7 [] }
        [(MapKey.ref "r", (101, AnyCreate.node
          { ref := "r", label := "R", previous_node_ref := "t",
            router_edge_label := "",
            kind := NodeKind.router
              [{ label := "yes", condition := "", uid := "u1" },
               { label := "no", condition := "", uid := "u2" }] }))] =
      Except.ok (101, "u2") :=
  ((C3_router_edge_resolution
      { ref := "a", label := "A", previous_node_ref := "r",
        router_edge_label := "no", kind := NodeKind.create_row 7 [] }
      [(MapKey.ref "r", (101, AnyCreate.node
        { ref := "r", label := "R", previous_node_ref := "t",
          router_edge_label := "",
          kind := NodeKind.router
            [{ label := "yes", condition := "", uid := "u1" },
             { label := "no", condition := "", uid := "u2" }] }))]
      101
      (AnyCreate.node
        { ref := "r", label := "R", previous_node_ref := "t",
          router_edge_label := "",
          kind := NodeKind.router
            [{ label := "yes", condition := "", uid := "u1" },
             { label := "no", condition := "", uid := "u2" }] })
      rfl).1
    1 (by decide) rfl (by decide) rfl
    (fun l hl hlj => by
      have hl0 : l = 0 := by omega
      subst hl0
      show ("yes" : String) ≠ "no"
      decide)).1

/-- C4: for every node in `workflow.nodes` whose `previous_node_ref` names
neither the trigger's ref nor a ref of a node created earlier in the list
(an ORM id, being a Python int, can never equal the string ref either),
`create_workflow` raises a ValueError naming the missing reference before
calling the node-creation service for that node: the run errs with exactly
the workflow record, the trigger call and one call per earlier node in its
trace. In particular a forward reference to a node appearing later in the
list is rejected. -/
theorem C4_missing_ref_raises (wf : WorkflowCreate) (startId : Nat)
    (pre post : List NodeCreate) (n : NodeCreate) (st1 : WfState)
    (hsplit : wf.nodes = pre ++ n :: post)
    (hpre : create_workflow { wf with nodes := pre } startId = WfOutcome.ok st1)
    (htrig : n.previous_node_ref ≠ wf.trigger.ref)
    (hearlier : ∀ m ∈ pre, n.previous_node_ref ≠ m.ref) :
    create_workflow wf startId =
      WfOutcome.err st1.trace
        ("Previous node ref '" ++ n.previous_node_ref
          ++ "' not found in mapping") ∧
    st1.trace.length = 2 + pre.length := by
  have hrun : runNodes (initState wf startId) pre = WfOutcome.ok st1 := hpre
  obtain ⟨hnext, hmap, calls, htr, hlen, _⟩ :=
    runNodes_ok_spec pre _ st1 hrun
  have hlen2 : st1.trace.length = 2 + pre.length := by
    rw [htr]
    simp [initState, hlen]
    omega
  have hall : ∀ c ∈ AnyCreate.trigger wf.trigger :: pre.map AnyCreate.node,
      c.ref ≠ n.previous_node_ref := by
    intro c hc
    rcases List.mem_cons.mp hc with h | h
    · rw [h]
      exact fun he => htrig he.symm
    · obtain ⟨mnode, hm, rfl⟩ := List.mem_map.mp h
      exact fun he => hearlier mnode hm he.symm
  have hget : dictGet (MapKey.ref n.previous_node_ref) st1.mapping = none := by
    rw [hmap]
    have hstep1 : buildMappingAux (initState wf startId).mapping
        (initState wf startId).nextId (pre.map AnyCreate.node) =
        buildMappingAux [] startId
          (AnyCreate.trigger wf.trigger :: pre.map AnyCreate.node) := rfl
    rw [hstep1, dictGet_ref_buildMappingAux,
      (lastWithRef_eq_none _ _ _).mpr hall]
    rfl
  have hstep : stepNode st1 n =
      Except.error ("Previous node ref '" ++ n.previous_node_ref
        ++ "' not found in mapping") := by
    unfold stepNode NodeCreate.to_orm_reference_node
    rw [hget]
  refine ⟨?_, hlen2⟩
  show runNodes (initState wf startId) wf.nodes = _
  rw [hsplit, runNodes_append pre _ st1 _ hrun]
  show (match stepNode st1 n with
    | Except.error e => WfOutcome.err st1.trace e
    | Except.ok st2 => runNodes st2 post) = _
  rw [hstep]

/-- Witness for C4: a node whose `previous_node_ref` is a forward reference
to a node later in the list; the run fails naming the reference, with only
the workflow record, the trigger and the one earlier node in the trace. -/
theorem C4_missing_ref_raises_witness :
    create_workflow
        { name := "W",
          trigger := { ref := "t", label := "T", type := TriggerType.periodic },
          nodes :=
            [{ ref := "g", label := "G", previous_node_ref := "t",
               kind := NodeKind.delete_row 1 "1" },
             { ref := "b", label := "B", previous_node_ref := "later",
               kind := NodeKind.delete_row 2 "1" },
             { ref := "later", label := "L", previous_node_ref := "g",
               kind := NodeKind.delete_row 3 "1" }] } 100 =
      WfOutcome.err
        [WfEvent.createWorkflowRec "W",
         WfEvent.createNode
           { node_type := "periodic", label := "T", service := [],
             reference_node_id := none, output := none },
         WfEvent.createNode
           { node_type := "delete_row", label := "G",
             service := [("table_id", PyVal.vInt 1)],
             reference_node_id := some 100, output := some "" }]
        "Previous node ref 'later' not found in mapping" ∧
    ([WfEvent.createWorkflowRec "W",
      WfEvent.createNode
        { node_type := "periodic", label := "T", service := [],
          reference_node_id := none, output := none },
      WfEvent.createNode
        { node_type := "delete_row", label := "G",
          service := [("table_id", PyVal.vInt 1)],
          reference_node_id := some 100, output := some "" }] :
      List WfEvent).length = 2 + 1 :=
  C4_missing_ref_raises
    { name := "W",
      trigger := { ref := "t", label := "T", type := TriggerType.periodic },
      nodes :=
        [{ ref := "g", label := "G", previous_node_ref := "t",
           kind := NodeKind.delete_row 1 "1" },
         { ref := "b", label := "B", previous_node_ref := "later",
           kind := NodeKind.delete_row 2 "1" },
         { ref := "later", label := "L", previous_node_ref := "g",
           kind := NodeKind.delete_row 3 "1" }] } 100
    [{ ref := "g", label := "G", previous_node_ref := "t",
       kind := NodeKind.delete_row 1 "1" }]
    [{ ref := "later", label := "L", previous_node_ref := "g",
       kind := NodeKind.delete_row 3 "1" }]
    { ref := "b", label := "B", previous_node_ref := "later",
      kind := NodeKind.delete_row 2 "1" }
    { nextId := 102,
      mapping :=
        [(MapKey.ref "t", (100, AnyCreate.trigger
            { ref := "t", label := "T", type := TriggerType.periodic })),
         (MapKey.ormId 100, (100, AnyCreate.trigger
            { ref := "t", label := "T", type := TriggerType.periodic })),
         (MapKey.ref "g", (101, AnyCreate.node
            { ref := "g", label := "G", previous_node_ref := "t",
              kind := NodeKind.delete_row 1 "1" })),
         (MapKey.ormId 101, (101, AnyCreate.node
            { ref := "g", label := "G", previous_node_ref := "t",
              kind := NodeKind.delete_row 1 "1" }))],
      trace :=
        [WfEvent.createWorkflowRec "W",
         WfEvent.createNode
           { node_type := "periodic", label := "T", service := [],
             reference_node_id := none, output := none },
         WfEvent.createNode
           { node_type := "delete_row", label := "G",
             service := [("table_id", PyVal.vInt 1)],
             reference_node_id := some 100, output := some "" }] }
    rfl rfl (by decide) (by decide)

/-- Indexing into the entity list `trigger :: nodes so far`. -/
theorem get_cons_map_take (nodes : List NodeCreate) (c : AnyCreate)
    (k j2 : Nat) (h1 : j2 + 1 < (c :: (nodes.take k).map AnyCreate.node).length)
    (h2 : j2 < nodes.length) :
    (c :: (nodes.take k).map AnyCreate.node).get ⟨j2 + 1, h1⟩ =
      AnyCreate.node (nodes.get ⟨j2, h2⟩) := by
  show ((nodes.take k).map AnyCreate.node).get ⟨j2, _⟩ = _
  simp [List.getElem_map, List.getElem_take]

/-- C1: for every workflow definition whose creation succeeds,
`create_workflow` first creates the workflow record, then the trigger node
(with no previous-node reference), then each node of `workflow.nodes` in
list order; and each non-trigger node is created with `reference_node_id`
equal to the ORM id of the already-created node whose client-supplied ref
equals that node's `previous_node_ref` (the most recently created one when
refs repeat): the trigger when no earlier node carries the ref, otherwise
the latest earlier node carrying it. -/
theorem C1_create_workflow_order (wf : WorkflowCreate) (startId : Nat)
    (st : WfState) (h : create_workflow wf startId = WfOutcome.ok st) :
    ∃ calls : List CreateNodeCall,
      st.trace = WfEvent.createWorkflowRec wf.name ::
        WfEvent.createNode (triggerCall wf.trigger) ::
        calls.map WfEvent.createNode ∧
      (triggerCall wf.trigger).reference_node_id = none ∧
      calls.length = wf.nodes.length ∧
      ∀ k, ∀ hk : k < wf.nodes.length, ∀ hk2 : k < calls.length,
        (calls.get ⟨k, hk2⟩).node_type = (wf.nodes.get ⟨k, hk⟩).type ∧
        (calls.get ⟨k, hk2⟩).label = (wf.nodes.get ⟨k, hk⟩).label ∧
        (calls.get ⟨k, hk2⟩).service =
          (wf.nodes.get ⟨k, hk⟩).to_orm_service_dict ∧
        ∃ rid, (calls.get ⟨k, hk2⟩).reference_node_id = some rid ∧
          ((rid = startId ∧
            wf.trigger.ref = (wf.nodes.get ⟨k, hk⟩).previous_node_ref ∧
            ∀ j, ∀ hj : j < wf.nodes.length, j < k →
              (wf.nodes.get ⟨j, hj⟩).ref ≠
                (wf.nodes.get ⟨k, hk⟩).previous_node_ref) ∨
          (∃ j, ∃ hj : j < wf.nodes.length, j < k ∧ rid = startId + 1 + j ∧
            (wf.nodes.get ⟨j, hj⟩).ref =
              (wf.nodes.get ⟨k, hk⟩).previous_node_ref ∧
            ∀ l, ∀ hl : l < wf.nodes.length, j < l → l < k →
              (wf.nodes.get ⟨l, hl⟩).ref ≠
                (wf.nodes.get ⟨k, hk⟩).previous_node_ref)) := by
  have hrun : runNodes (initState wf startId) wf.nodes = WfOutcome.ok st := h
  obtain ⟨hnext, hmap, calls, htr, hlen, hidx⟩ :=
    runNodes_ok_spec wf.nodes _ st hrun
  refine ⟨calls, ?_, rfl, hlen, ?_⟩
  · rw [htr]
    rfl
  · intro k hk hk2
    obtain ⟨rid, out, hres, hcall⟩ := hidx k hk hk2
    rw [hcall]
    refine ⟨rfl, rfl, rfl, rid, rfl, ?_⟩
    obtain ⟨prev, hget⟩ := to_orm_reference_node_ok_dictGet _ _ _ _ hres
    have hget2 : dictGet
        (MapKey.ref (wf.nodes.get ⟨k, hk⟩).previous_node_ref)
        (buildMappingAux [] startId (AnyCreate.trigger wf.trigger ::
          (wf.nodes.take k).map AnyCreate.node)) = some (rid, prev) := hget
    rw [dictGet_ref_buildMappingAux] at hget2
    cases hlast : lastWithRef startId (AnyCreate.trigger wf.trigger ::
        (wf.nodes.take k).map AnyCreate.node)
        (wf.nodes.get ⟨k, hk⟩).previous_node_ref with
    | none =>
      rw [hlast] at hget2
      exact absurd hget2 (by simp [dictGet])
    | some p =>
      rw [hlast] at hget2
      have hp : p = (rid, prev) := by simpa using hget2
      subst hp
      obtain ⟨j, hj, hrf, hpv, hlat⟩ := lastWithRef_eq_some _ _ _ _ hlast
      have htk : ((wf.nodes.take k).map AnyCreate.node).length = k := by
        simp [List.length_take]
        omega
      have hrid : rid = startId + j := by
        simpa using congrArg (fun q => q.1) hpv
      cases j with
      | zero =>
        left
        refine ⟨by omega, ?_, ?_⟩
        · exact hrf
        · intro j2 hj2 hj2k
          have hl1 : j2 + 1 < (AnyCreate.trigger wf.trigger ::
              (wf.nodes.take k).map AnyCreate.node).length := by
            simp [htk]
            omega
          have := hlat (j2 + 1) hl1 (Nat.succ_pos _)
          rw [get_cons_map_take wf.nodes _ k j2 hl1 hj2] at this
          exact this
      | succ j2 =>
        right
        have hj2k : j2 < k := by
          have : j2 + 1 < k + 1 := by
            have := hj
            simp [htk] at this
            omega
          omega
        have hj2len : j2 < wf.nodes.length := by omega
        refine ⟨j2, hj2len, hj2k, by omega, ?_, ?_⟩
        · rw [get_cons_map_take wf.nodes _ k j2 hj hj2len] at hrf
          exact hrf
        · intro l hl hj2l hlk
          have hl1 : l + 1 < (AnyCreate.trigger wf.trigger ::
              (wf.nodes.take k).map AnyCreate.node).length := by
            simp [htk]
            omega
          have := hlat (l + 1) hl1 (by omega)
          rw [get_cons_map_take wf.nodes _ k l hl1 hl] at this
          exact this

/-- Witness for C1: a one-node workflow; the run succeeds, the trace is the
workflow record, the trigger call and the node call in order, and the node's
reference resolves to the trigger's ORM id. -/
theorem C1_create_workflow_order_witness :
    ∃ calls : List CreateNodeCall,
      (({ nextId := 102, mapping := [(MapKey.ref "t", (100, AnyCreate.trigger { ref := "t", label := "T", type := TriggerType.periodic })), (MapKey.ormId 100, (100, AnyCreate.trigger { ref := "t", label := "T", type := TriggerType.periodic })), (MapKey.ref "a", (101, AnyCreate.node { ref := "a", label := "A", previous_node_ref := "t", kind := NodeKind.create_row 7 [] })), (MapKey.ormId 101, (101, AnyCreate.node { ref := "a", label := "A", previous_node_ref := "t", kind := NodeKind.create_row 7 [] }))], trace := [WfEvent.createWorkflowRec "W", WfEvent.createNode { node_type := "periodic", label := "T", service := [], reference_node_id := none, output := none }, WfEvent.createNode { node_type := "create_row", label := "A", service := [("table_id", PyVal.vInt 7)], reference_node_id := some 100, output := some "" }] } : WfState)).trace = WfEvent.createWorkflowRec "W" :: WfEvent.createNode (triggerCall { ref := "t", label := "T", type := TriggerType.periodic }) :: calls.map WfEvent.createNode ∧
      (triggerCall { ref := "t", label := "T", type := TriggerType.periodic }).reference_node_id = none ∧
      calls.length = ([({ ref := "a", label := "A", previous_node_ref := "t", kind := NodeKind.create_row 7 [] } : NodeCreate)]).length ∧
      ∀ k, ∀ hk : k < ([({ ref := "a", label := "A", previous_node_ref := "t", kind := NodeKind.create_row 7 [] } : NodeCreate)]).length, ∀ hk2 : k < calls.length,
        (calls.get ⟨k, hk2⟩).node_type = (([({ ref := "a", label := "A", previous_node_ref := "t", kind := NodeKind.create_row 7 [] } : NodeCreate)]).get ⟨k, hk⟩).type ∧
        (calls.get ⟨k, hk2⟩).label = (([({ ref := "a", label := "A", previous_node_ref := "t", kind := NodeKind.create_row 7 [] } : NodeCreate)]).get ⟨k, hk⟩).label ∧
        (calls.get ⟨k, hk2⟩).service = (([({ ref := "a", label := "A", previous_node_ref := "t", kind := NodeKind.create_row 7 [] } : NodeCreate)]).get ⟨k, hk⟩).to_orm_service_dict ∧
        ∃ rid, (calls.get ⟨k, hk2⟩).reference_node_id = some rid ∧
          ((rid = 100 ∧
            ({ ref := "t", label := "T", type := TriggerType.periodic } : TriggerNodeCreate).ref = (([({ ref := "a", label := "A", previous_node_ref := "t", kind := NodeKind.create_row 7 [] } : NodeCreate)]).get ⟨k, hk⟩).previous_node_ref ∧
            ∀ j, ∀ hj : j < ([({ ref := "a", label := "A", previous_node_ref := "t", kind := NodeKind.create_row 7 [] } : NodeCreate)]).length, j < k →
              (([({ ref := "a", label := "A", previous_node_ref := "t", kind := NodeKind.create_row 7 [] } : NodeCreate)]).get ⟨j, hj⟩).ref ≠ (([({ ref := "a", label := "A", previous_node_ref := "t", kind := NodeKind.create_row 7 [] } : NodeCreate)]).get ⟨k, hk⟩).previous_node_ref) ∨
          (∃ j, ∃ hj : j < ([({ ref := "a", label := "A", previous_node_ref := "t", kind := NodeKind.create_row 7 [] } : NodeCreate)]).length, j < k ∧ rid = 100 + 1 + j ∧
            (([({ ref := "a", label := "A", previous_node_ref := "t", kind := NodeKind.create_row 7 [] } : NodeCreate)]).get ⟨j, hj⟩).ref = (([({ ref := "a", label := "A", previous_node_ref := "t", kind := NodeKind.create_row 7 [] } : NodeCreate)]).get ⟨k, hk⟩).previous_node_ref ∧
            ∀ l, ∀ hl : l < ([({ ref := "a", label := "A", previous_node_ref := "t", kind := NodeKind.create_row 7 [] } : NodeCreate)]).length, j < l → l < k →
              (([({ ref := "a", label := "A", previous_node_ref := "t", kind := NodeKind.create_row 7 [] } : NodeCreate)]).get ⟨l, hl⟩).ref ≠ (([({ ref := "a", label := "A", previous_node_ref := "t", kind := NodeKind.create_row 7 [] } : NodeCreate)]).get ⟨k, hk⟩).previous_node_ref)) :=
  C1_create_workflow_order { name := "W", trigger := { ref := "t", label := "T", type := TriggerType.periodic }, nodes := [{ ref := "a", label := "A", previous_node_ref := "t", kind := NodeKind.create_row 7 [] }] } 100 ({ nextId := 102, mapping := [(MapKey.ref "t", (100, AnyCreate.trigger { ref := "t", label := "T", type := TriggerType.periodic })), (MapKey.ormId 100, (100, AnyCreate.trigger { ref := "t", label := "T", type := TriggerType.periodic })), (MapKey.ref "a", (101, AnyCreate.node { ref := "a", label := "A", previous_node_ref := "t", kind := NodeKind.create_row 7 [] })), (MapKey.ormId 101, (101, AnyCreate.node { ref := "a", label := "A", previous_node_ref := "t", kind := NodeKind.create_row 7 [] }))], trace := [WfEvent.createWorkflowRec "W", WfEvent.createNode { node_type := "periodic", label := "T", service := [], reference_node_id := none, output := none }, WfEvent.createNode { node_type := "create_row", label := "A", service := [("table_id", PyVal.vInt 7)], reference_node_id := some 100, output := some "" }] } : WfState) rfl

/-- Indexing into the entity list `trigger :: all nodes`. -/
theorem get_cons_map (nodes : List NodeCreate) (c : AnyCreate) (j2 : Nat)
    (h1 : j2 + 1 < (c :: nodes.map AnyCreate.node).length)
    (h2 : j2 < nodes.length) :
    (c :: nodes.map AnyCreate.node).get ⟨j2 + 1, h1⟩ =
      AnyCreate.node (nodes.get ⟨j2, h2⟩) := by
  show (nodes.map AnyCreate.node).get ⟨j2, _⟩ = _
  simp [List.getElem_map]

/-- C9: throughout `create_workflow`, each created node is registered in the
in-memory node mapping under its ORM id, and under its client-supplied ref
as long as no later node reuses that ref — a later node with the same ref
silently overwrites the entry (so lookups resolve to the latest node with
that ref, shown by the hypothesis-free latest-wins conjunct), duplicate refs
are not rejected (the witness succeeds with a duplicated ref), and the
mapping holds no keys other than the entities' ORM ids and refs. -/
theorem C9_node_mapping_registration (wf : WorkflowCreate) (startId : Nat)
    (st : WfState) (h : create_workflow wf startId = WfOutcome.ok st) :
    dictGet (MapKey.ormId startId) st.mapping =
      some (startId, AnyCreate.trigger wf.trigger) ∧
    (∀ k, ∀ hk : k < wf.nodes.length,
      dictGet (MapKey.ormId (startId + 1 + k)) st.mapping =
        some (startId + 1 + k, AnyCreate.node (wf.nodes.get ⟨k, hk⟩))) ∧
    (∀ k, ∀ hk : k < wf.nodes.length,
      (∀ l, ∀ hl : l < wf.nodes.length, k < l →
        (wf.nodes.get ⟨l, hl⟩).ref ≠ (wf.nodes.get ⟨k, hk⟩).ref) →
      dictGet (MapKey.ref (wf.nodes.get ⟨k, hk⟩).ref) st.mapping =
        some (startId + 1 + k, AnyCreate.node (wf.nodes.get ⟨k, hk⟩))) ∧
    (∀ key v, (key, v) ∈ st.mapping →
      (∃ k, k ≤ wf.nodes.length ∧ key = MapKey.ormId (startId + k)) ∨
      key = MapKey.ref wf.trigger.ref ∨
      (∃ k, ∃ hk : k < wf.nodes.length,
        key = MapKey.ref (wf.nodes.get ⟨k, hk⟩).ref)) := by
  have hrun : runNodes (initState wf startId) wf.nodes = WfOutcome.ok st := h
  obtain ⟨hnext, hmap, _⟩ := runNodes_ok_spec wf.nodes _ st hrun
  have hmap2 : st.mapping = buildMappingAux [] startId
      (AnyCreate.trigger wf.trigger :: wf.nodes.map AnyCreate.node) := hmap
  have hlen_es : (AnyCreate.trigger wf.trigger ::
      wf.nodes.map AnyCreate.node).length = wf.nodes.length + 1 := by simp
  refine ⟨?_, ?_, ?_, ?_⟩
  · rw [hmap2, dictGet_ormId_buildMappingAux]
    have h0 := idLookup_of_lt
      (AnyCreate.trigger wf.trigger :: wf.nodes.map AnyCreate.node)
      startId 0 (by simp)
    rw [Nat.add_zero] at h0
    rw [h0]
    rfl
  · intro k hk
    rw [hmap2, dictGet_ormId_buildMappingAux]
    have hke : k + 1 < (AnyCreate.trigger wf.trigger ::
        wf.nodes.map AnyCreate.node).length := by
      rw [hlen_es]
      omega
    have h1 := idLookup_of_lt
      (AnyCreate.trigger wf.trigger :: wf.nodes.map AnyCreate.node)
      startId (k + 1) hke
    have harith : startId + (k + 1) = startId + 1 + k := by omega
    rw [harith] at h1
    rw [h1, get_cons_map wf.nodes _ k hke hk]
  · intro k hk hlatest
    rw [hmap2, dictGet_ref_buildMappingAux]
    have hke : k + 1 < (AnyCreate.trigger wf.trigger ::
        wf.nodes.map AnyCreate.node).length := by
      rw [hlen_es]
      omega
    have hrf : ((AnyCreate.trigger wf.trigger ::
        wf.nodes.map AnyCreate.node).get ⟨k + 1, hke⟩).ref =
        (wf.nodes.get ⟨k, hk⟩).ref := by
      rw [get_cons_map wf.nodes _ k hke hk]
      rfl
    have hlat : ∀ l, ∀ hl : l < (AnyCreate.trigger wf.trigger ::
        wf.nodes.map AnyCreate.node).length, k + 1 < l →
        ((AnyCreate.trigger wf.trigger ::
          wf.nodes.map AnyCreate.node).get ⟨l, hl⟩).ref ≠
          (wf.nodes.get ⟨k, hk⟩).ref := by
      intro l hl hkl
      cases l with
      | zero => omega
      | succ l2 =>
        have hl2 : l2 < wf.nodes.length := by
          rw [hlen_es] at hl
          omega
        rw [get_cons_map wf.nodes _ l2 hl hl2]
        exact hlatest l2 hl2 (by omega)
    have := lastWithRef_of_latest
      (AnyCreate.trigger wf.trigger :: wf.nodes.map AnyCreate.node)
      startId ((wf.nodes.get ⟨k, hk⟩).ref) (k + 1) hke hrf hlat
    rw [this, get_cons_map wf.nodes _ k hke hk]
    have harith : startId + (k + 1) = startId + 1 + k := by omega
    rw [harith]
  · intro key v hmem
    rw [hmap2] at hmem
    rcases buildMappingAux_key_domain _ _ _ _ _ hmem with h1 | h1 | h1
    · exact absurd h1 (by simp)
    · obtain ⟨k, hk, hkey⟩ := h1
      refine Or.inl ⟨k, ?_, hkey⟩
      rw [hlen_es] at hk
      omega
    · obtain ⟨k, hk, hkey⟩ := h1
      cases k with
      | zero => exact Or.inr (Or.inl hkey)
      | succ k2 =>
        have hk2 : k2 < wf.nodes.length := by
          rw [hlen_es] at hk
          omega
        refine Or.inr (Or.inr ⟨k2, hk2, ?_⟩)
        rw [hkey, get_cons_map wf.nodes _ k2 hk hk2]
        rfl

/-- Witness for C9: a workflow with two nodes sharing the ref "a" succeeds
(duplicate refs are not rejected); each node is registered under its ORM id,
the ref key holds the latest node, and the mapping has only the entity keys. -/
theorem C9_node_mapping_registration_witness :
    dictGet (MapKey.ormId 100) (({ nextId := 103, mapping := [(MapKey.ref "t", (100, AnyCreate.trigger { ref := "t", label := "T", type := TriggerType.periodic })), (MapKey.ormId 100, (100, AnyCreate.trigger { ref := "t", label := "T", type := TriggerType.periodic })), (MapKey.ref "a", (102, AnyCreate.node { ref := "a", label := "A2", previous_node_ref := "a", kind := NodeKind.delete_row 2 "1" })), (MapKey.ormId 101, (101, AnyCreate.node { ref := "a", label := "A1", previous_node_ref := "t", kind := NodeKind.delete_row 1 "1" })), (MapKey.ormId 102, (102, AnyCreate.node { ref := "a", label := "A2", previous_node_ref := "a", kind := NodeKind.delete_row 2 "1" }))], trace := [WfEvent.createWorkflowRec "D", WfEvent.createNode { node_type := "periodic", label := "T", service := [], reference_node_id := none, output := none }, WfEvent.createNode { node_type := "delete_row", label := "A1", service := [("table_id", PyVal.vInt 1)], reference_node_id := some 100, output := some "" }, WfEvent.createNode { node_type := "delete_row", label := "A2", service := [("table_id", PyVal.vInt 2)], reference_node_id := some 101, output := some "" }] } : WfState)).mapping = some (100, AnyCreate.trigger { ref := "t", label := "T", type := TriggerType.periodic }) ∧
    (∀ k, ∀ hk : k < ([({ ref := "a", label := "A1", previous_node_ref := "t", kind := NodeKind.delete_row 1 "1" } : NodeCreate), { ref := "a", label := "A2", previous_node_ref := "a", kind := NodeKind.delete_row 2 "1" }]).length,
      dictGet (MapKey.ormId (100 + 1 + k)) (({ nextId := 103, mapping := [(MapKey.ref "t", (100, AnyCreate.trigger { ref := "t", label := "T", type := TriggerType.periodic })), (MapKey.ormId 100, (100, AnyCreate.trigger { ref := "t", label := "T", type := TriggerType.periodic })), (MapKey.ref "a", (102, AnyCreate.node { ref := "a", label := "A2", previous_node_ref := "a", kind := NodeKind.delete_row 2 "1" })), (MapKey.ormId 101, (101, AnyCreate.node { ref := "a", label := "A1", previous_node_ref := "t", kind := NodeKind.delete_row 1 "1" })), (MapKey.ormId 102, (102, AnyCreate.node { ref := "a", label := "A2", previous_node_ref := "a", kind := NodeKind.delete_row 2 "1" }))], trace := [WfEvent.createWorkflowRec "D", WfEvent.createNode { node_type := "periodic", label := "T", service := [], reference_node_id := none, output := none }, WfEvent.createNode { node_type := "delete_row", label := "A1", service := [("table_id", PyVal.vInt 1)], reference_node_id := some 100, output := some "" }, WfEvent.createNode { node_type := "delete_row", label := "A2", service := [("table_id", PyVal.vInt 2)], reference_node_id := some 101, output := some "" }] } : WfState)).mapping = some (100 + 1 + k, AnyCreate.node (([({ ref := "a", label := "A1", previous_node_ref := "t", kind := NodeKind.delete_row 1 "1" } : NodeCreate), { ref := "a", label := "A2", previous_node_ref := "a", kind := NodeKind.delete_row 2 "1" }]).get ⟨k, hk⟩))) ∧
    (∀ k, ∀ hk : k < ([({ ref := "a", label := "A1", previous_node_ref := "t", kind := NodeKind.delete_row 1 "1" } : NodeCreate), { ref := "a", label := "A2", previous_node_ref := "a", kind := NodeKind.delete_row 2 "1" }]).length,
      (∀ l, ∀ hl : l < ([({ ref := "a", label := "A1", previous_node_ref := "t", kind := NodeKind.delete_row 1 "1" } : NodeCreate), { ref := "a", label := "A2", previous_node_ref := "a", kind := NodeKind.delete_row 2 "1" }]).length, k < l →
        (([({ ref := "a", label := "A1", previous_node_ref := "t", kind := NodeKind.delete_row 1 "1" } : NodeCreate), { ref := "a", label := "A2", previous_node_ref := "a", kind := NodeKind.delete_row 2 "1" }]).get ⟨l, hl⟩).ref ≠ (([({ ref := "a", label := "A1", previous_node_ref := "t", kind := NodeKind.delete_row 1 "1" } : NodeCreate), { ref := "a", label := "A2", previous_node_ref := "a", kind := NodeKind.delete_row 2 "1" }]).get ⟨k, hk⟩).ref) →
      dictGet (MapKey.ref (([({ ref := "a", label := "A1", previous_node_ref := "t", kind := NodeKind.delete_row 1 "1" } : NodeCreate), { ref := "a", label := "A2", previous_node_ref := "a", kind := NodeKind.delete_row 2 "1" }]).get ⟨k, hk⟩).ref) (({ nextId := 103, mapping := [(MapKey.ref "t", (100, AnyCreate.trigger { ref := "t", label := "T", type := TriggerType.periodic })), (MapKey.ormId 100, (100, AnyCreate.trigger { ref := "t", label := "T", type := TriggerType.periodic })), (MapKey.ref "a", (102, AnyCreate.node { ref := "a", label := "A2", previous_node_ref := "a", kind := NodeKind.delete_row 2 "1" })), (MapKey.ormId 101, (101, AnyCreate.node { ref := "a", label := "A1", previous_node_ref := "t", kind := NodeKind.delete_row 1 "1" })), (MapKey.ormId 102, (102, AnyCreate.node { ref := "a", label := "A2", previous_node_ref := "a", kind := NodeKind.delete_row 2 "1" }))], trace := [WfEvent.createWorkflowRec "D", WfEvent.createNode { node_type := "periodic", label := "T", service := [], reference_node_id := none, output := none }, WfEvent.createNode { node_type := "delete_row", label := "A1", service := [("table_id", PyVal.vInt 1)], reference_node_id := some 100, output := some "" }, WfEvent.createNode { node_type := "delete_row", label := "A2", service := [("table_id", PyVal.vInt 2)], reference_node_id := some 101, output := some "" }] } : WfState)).mapping = some (100 + 1 + k, AnyCreate.node (([({ ref := "a", label := "A1", previous_node_ref := "t", kind := NodeKind.delete_row 1 "1" } : NodeCreate), { ref := "a", label := "A2", previous_node_ref := "a", kind := NodeKind.delete_row 2 "1" }]).get ⟨k, hk⟩))) ∧
    (∀ key v, (key, v) ∈ (({ nextId := 103, mapping := [(MapKey.ref "t", (100, AnyCreate.trigger { ref := "t", label := "T", type := TriggerType.periodic })), (MapKey.ormId 100, (100, AnyCreate.trigger { ref := "t", label := "T", type := TriggerType.periodic })), (MapKey.ref "a", (102, AnyCreate.node { ref := "a", label := "A2", previous_node_ref := "a", kind := NodeKind.delete_row 2 "1" })), (MapKey.ormId 101, (101, AnyCreate.node { ref := "a", label := "A1", previous_node_ref := "t", kind := NodeKind.delete_row 1 "1" })), (MapKey.ormId 102, (102, AnyCreate.node { ref := "a", label := "A2", previous_node_ref := "a", kind := NodeKind.delete_row 2 "1" }))], trace := [WfEvent.createWorkflowRec "D", WfEvent.createNode { node_type := "periodic", label := "T", service := [], reference_node_id := none, output := none }, WfEvent.createNode { node_type := "delete_row", label := "A1", service := [("table_id", PyVal.vInt 1)], reference_node_id := some 100, output := some "" }, WfEvent.createNode { node_type := "delete_row", label := "A2", service := [("table_id", PyVal.vInt 2)], reference_node_id := some 101, output := some "" }] } : WfState)).mapping →
      (∃ k, k ≤ ([({ ref := "a", label := "A1", previous_node_ref := "t", kind := NodeKind.delete_row 1 "1" } : NodeCreate), { ref := "a", label := "A2", previous_node_ref := "a", kind := NodeKind.delete_row 2 "1" }]).length ∧ key = MapKey.ormId (100 + k)) ∨
      key = MapKey.ref ({ ref := "t", label := "T", type := TriggerType.periodic } : TriggerNodeCreate).ref ∨
      (∃ k, ∃ hk : k < ([({ ref := "a", label := "A1", previous_node_ref := "t", kind := NodeKind.delete_row 1 "1" } : NodeCreate), { ref := "a", label := "A2", previous_node_ref := "a", kind := NodeKind.delete_row 2 "1" }]).length, key = MapKey.ref (([({ ref := "a", label := "A1", previous_node_ref := "t", kind := NodeKind.delete_row 1 "1" } : NodeCreate), { ref := "a", label := "A2", previous_node_ref := "a", kind := NodeKind.delete_row 2 "1" }]).get ⟨k, hk⟩).ref)) :=
  C9_node_mapping_registration { name := "D", trigger := { ref := "t", label := "T", type := TriggerType.periodic }, nodes := [{ ref := "a", label := "A1", previous_node_ref := "t", kind := NodeKind.delete_row 1 "1" }, { ref := "a", label := "A2", previous_node_ref := "a", kind := NodeKind.delete_row 2 "1" }] } 100 ({ nextId := 103, mapping := [(MapKey.ref "t", (100, AnyCreate.trigger { ref := "t", label := "T", type := TriggerType.periodic })), (MapKey.ormId 100, (100, AnyCreate.trigger { ref := "t", label := "T", type := TriggerType.periodic })), (MapKey.ref "a", (102, AnyCreate.node { ref := "a", label := "A2", previous_node_ref := "a", kind := NodeKind.delete_row 2 "1" })), (MapKey.ormId 101, (101, AnyCreate.node { ref := "a", label := "A1", previous_node_ref := "t", kind := NodeKind.delete_row 1 "1" })), (MapKey.ormId 102, (102, AnyCreate.node { ref := "a", label := "A2", previous_node_ref := "a", kind := NodeKind.delete_row 2 "1" }))], trace := [WfEvent.createWorkflowRec "D", WfEvent.createNode { node_type := "periodic", label := "T", service := [], reference_node_id := none, output := none }, WfEvent.createNode { node_type := "delete_row", label := "A1", service := [("table_id", PyVal.vInt 1)], reference_node_id := some 100, output := some "" }, WfEvent.createNode { node_type := "delete_row", label := "A2", service := [("table_id", PyVal.vInt 2)], reference_node_id := some 101, output := some "" }] } : WfState) rfl

end Baserow
